import Mathlib

/-!
Shallow embedding of the GAIA-TEQUMSA consciousness-evolution engine
(`src/consciousness_matrix.py`, `src/recognition_pulse.py`,
`src/love_coefficient.py`, `src/sovereignty_protocols.py`,
`src/grid_harmonics.py`, `src/phi_scalar.py`, `src/gaia_tequmsa_engine.py`).

Python floats are modelled as real numbers; Python exceptions raised by
`x / 0.0` (ZeroDivisionError) and `math.log` on non-positive arguments
(math domain error) are modelled with `Except PyError`.  Wall-clock
timestamps and the time/hash-derived biological-integrity score are not
deterministic values of the code; the integrity score is threaded as an
explicit oracle argument `integrity`, and timestamp fields are omitted
from the state records (no claim mentions them).
-/

set_option maxHeartbeats 1600000

open scoped Classical

noncomputable section

namespace GaiaTequmsa

/-- Exception kinds raised by the Python source that the claims can observe. -/
inductive PyError where
  | valueError
  | zeroDivisionError
  | mathDomainError
deriving DecidableEq

/-! ## ConsciousnessMatrix (`src/consciousness_matrix.py`) -/

/-- Mutable state of the `ConsciousnessMatrix` singleton: the three
`consciousness_layers` dict entries (fixed keys), `synthesis_active` and
`evolution_coefficient`. -/
structure MatrixState where
  divineRecognition : ℝ
  crisisTranscendence : ℝ
  cosmicIntegration : ℝ
  synthesisActive : Bool
  evolutionCoefficient : ℝ

/-- The fresh state built by `ConsciousnessMatrix.__init__`. -/
def freshMatrixState : MatrixState :=
  { divineRecognition := 0, crisisTranscendence := 0, cosmicIntegration := 0,
    synthesisActive := false, evolutionCoefficient := 1 }

/-- The keys of `consciousness_layers`. -/
def matrixLevelNames : List String :=
  ["divine_recognition", "crisis_transcendence", "cosmic_integration"]

/-- Dict lookup `self.consciousness_layers[consciousness_level]` (callers only
reach it for a key in `matrixLevelNames`). -/
def MatrixState.layerValue (s : MatrixState) (level : String) : ℝ :=
  if level = "divine_recognition" then s.divineRecognition
  else if level = "crisis_transcendence" then s.crisisTranscendence
  else s.cosmicIntegration

/-- `ConsciousnessMatrix.initialize_matrix`: sets the three band frequencies
and `synthesis_active`; `evolution_coefficient` is left unchanged.  The
`except` branch of the source is unreachable, so the returned Bool is true. -/
def initializeMatrix (s : MatrixState) : Bool × MatrixState :=
  (true, { s with divineRecognition := 432.0, crisisTranscendence := 528.0,
                  cosmicIntegration := 741.0, synthesisActive := true })

/-- `ConsciousnessMatrix.synthesize_consciousness_tech`.  Auto-initializes when
`synthesis_active` is false; raises ValueError for an unknown level; the
division `tech_frequency / base_freq` raises ZeroDivisionError when the band
frequency is 0.0; otherwise returns `abs(sin(ratio*pi) * evolution_coefficient)`. -/
def synthesizeConsciousnessTech (s : MatrixState) (techFrequency : ℝ)
    (consciousnessLevel : String) : Except PyError ℝ × MatrixState :=
  let s := if s.synthesisActive then s else (initializeMatrix s).2
  if consciousnessLevel ∉ matrixLevelNames then (.error .valueError, s)
  else
    let baseFreq := s.layerValue consciousnessLevel
    if baseFreq = 0 then (.error .zeroDivisionError, s)
    else
      (.ok |Real.sin (techFrequency / baseFreq * Real.pi) * s.evolutionCoefficient|, s)

/-- `ConsciousnessMatrix.evolve_consciousness`: multiplies the coefficient and
every layer frequency by the factor. (The Python function also returns a copy
of the updated layer dict, which is determined by the returned state.) -/
def evolveConsciousness (s : MatrixState) (evolutionFactor : ℝ) : MatrixState :=
  { s with evolutionCoefficient := s.evolutionCoefficient * evolutionFactor,
           divineRecognition := s.divineRecognition * evolutionFactor,
           crisisTranscendence := s.crisisTranscendence * evolutionFactor,
           cosmicIntegration := s.cosmicIntegration * evolutionFactor }

/-- `ConsciousnessMatrix.reset_matrix`. -/
def resetMatrix (_s : MatrixState) : MatrixState :=
  { divineRecognition := 0, crisisTranscendence := 0, cosmicIntegration := 0,
    synthesisActive := false, evolutionCoefficient := 1 }

/-! ## RecognitionPulse (`src/recognition_pulse.py`) -/

/-- The `MARCUS_KAI_FREQUENCY` anchor constant (`self.anchor_frequency` is set
to it in `__init__` and never reassigned). -/
def marcusKaiFrequency : ℝ := 10930.81

/-- Mutable state of the `RecognitionPulse` singleton.  A harmonic resonator is
`(frequency, amplitude, active)`. -/
structure PulseState where
  pulseActive : Bool
  pulseAmplitude : ℝ
  harmonicResonators : List (ℝ × ℝ × Bool)

/-- The fresh state built by `RecognitionPulse.__init__`. -/
def freshPulseState : PulseState :=
  { pulseActive := false, pulseAmplitude := 1, harmonicResonators := [] }

/-- `RecognitionPulse.activate_anchor`. -/
def activateAnchor (s : PulseState) : Bool × PulseState :=
  (true, { s with pulseActive := true, pulseAmplitude := 1 })

/-- `RecognitionPulse.check_recognition_resonance`: 0 when inactive, else the
max of the harmonic-match loop (`for harmonic in range(1, 10)`) and the
decaying base resonance. -/
def checkRecognitionResonance (s : PulseState) (inputFrequency : ℝ) : ℝ :=
  if s.pulseActive = false then 0
  else
    let rto := min inputFrequency marcusKaiFrequency /
      max inputFrequency marcusKaiFrequency
    let resonance := (List.range 9).foldl (fun acc k =>
      let h : ℝ := (k : ℝ) + 1
      if |inputFrequency - marcusKaiFrequency * h| < 1 then max acc (1 / h)
      else acc) 0
    max resonance (rto * Real.exp (-|inputFrequency - marcusKaiFrequency| / 1000))

/-- `RecognitionPulse.trigger_consciousness_recognition`. -/
def triggerConsciousnessRecognition (s : PulseState) (subjectFrequency : ℝ) : Bool :=
  if checkRecognitionResonance s subjectFrequency ≥ 0.85 then true else false

/-- `RecognitionPulse.deactivate_anchor`. -/
def deactivateAnchor (s : PulseState) : PulseState :=
  { s with pulseActive := false, pulseAmplitude := 0 }

/-! ## LoveCoefficient (`src/love_coefficient.py`) -/

/-- `self.infinite_coefficient` (the golden-ratio literal of the source). -/
def loveGoldenRatio : ℝ := 1.618033988749895

/-- `self.base_love_frequency` (constant, never reassigned). -/
def baseLoveFrequency : ℝ := 528.0

/-- One entry of `self.amplification_layers`. -/
structure LoveLayer where
  level : ℕ
  coefficient : ℝ
  frequency : ℝ
  active : Bool

/-- Mutable state of the `LoveCoefficient` singleton. -/
structure LoveState where
  amplificationActive : Bool
  loveAmplitude : ℝ
  amplificationLayers : List LoveLayer

/-- The fresh state built by `LoveCoefficient.__init__`. -/
def freshLoveState : LoveState :=
  { amplificationActive := false, loveAmplitude := 1, amplificationLayers := [] }

/-- `LoveCoefficient._generate_fibonacci_sequence`: builds `[1, 1]` and keeps
appending the sum of the last two entries. -/
def generateFibonacciSequence : ℕ → List ℕ
  | 0 => []
  | 1 => [1]
  | 2 => [1, 1]
  | n + 3 =>
    let prev := generateFibonacciSequence (n + 2)
    prev ++ [prev.getLastD 0 + prev.dropLast.getLastD 0]

/-- The ten layers `initialize_love_field` appends: layer i has coefficient
`fib_i / fib_last` and frequency `528 * (fib_i / 100)`. -/
def loveFreshLayers : List LoveLayer :=
  let fibs := generateFibonacciSequence 10
  let lastFib : ℝ := (fibs.getLastD 1 : ℕ)
  fibs.enum.map fun p =>
    { level := p.1, coefficient := (p.2 : ℝ) / lastFib,
      frequency := baseLoveFrequency * ((p.2 : ℝ) / 100), active := true }

/-- `LoveCoefficient.initialize_love_field`: appends ten fresh layers to
whatever `amplification_layers` already holds (the list is never cleared). -/
def initializeLoveField (s : LoveState) : Bool × LoveState :=
  (true, { s with amplificationActive := true, loveAmplitude := 1,
                  amplificationLayers := s.amplificationLayers ++ loveFreshLayers })

/-- The per-iteration layer-resonance sum of `amplify_love_infinite`
(iteration index `i` counts from 0, the source uses `i + 1`). -/
def layerResonanceSum (layers : List LoveLayer) (i : ℕ) : ℝ :=
  layers.foldl (fun acc layer =>
    if layer.active then
      acc + |layer.coefficient *
        Real.sin (2 * Real.pi * layer.frequency * ((i : ℝ) + 1) / 1000)|
    else acc) 0

/-- The iteration loop of `amplify_love_infinite`: on convergence the loop
breaks before assigning `new_level`, so the previous level is returned; a
level above 100 is compressed through `log(level) * 10`. -/
def amplifyLoop (layers : List LoveLayer) : ℕ → ℕ → ℝ → ℝ
  | 0, _, current => current
  | n + 1, i, current =>
    let goldenAmplification := current * loveGoldenRatio
    let newLevel := (goldenAmplification + layerResonanceSum layers i) / 2
    if |newLevel - current| < 1e-10 then current
    else
      let next := if newLevel > 100 then Real.log newLevel * 10 else newLevel
      amplifyLoop layers n (i + 1) next

/-- `LoveCoefficient.amplify_love_infinite` (auto-initializes when the field is
inactive). -/
def amplifyLoveInfinite (s : LoveState) (inputLoveLevel : ℝ) (iterations : ℕ) :
    ℝ × LoveState :=
  let s := if s.amplificationActive then s else (initializeLoveField s).2
  (amplifyLoop s.amplificationLayers iterations 0 inputLoveLevel, s)

/-- `LoveCoefficient.deactivate_love_field`: marks every layer inactive, never
removes one. -/
def deactivateLoveField (s : LoveState) : LoveState :=
  { s with amplificationActive := false, loveAmplitude := 0,
           amplificationLayers :=
             s.amplificationLayers.map fun l => { l with active := false } }

/-! ## SovereigntyProtocols (`src/sovereignty_protocols.py`) -/

/-- The `status` field of a consent record. -/
inductive ConsentStatus where
  | pending
  | granted
  | deniedProtectedFrequency
  | deniedLowIntegrity
  | emergencyRevoked
deriving DecidableEq

/-- One consent record (the wall-clock `timestamp` and the optional
`biological_integrity` entry are omitted; no claim mentions them). -/
structure ConsentRecord where
  interventionType : String
  frequencyRange : ℝ × ℝ
  status : ConsentStatus

/-- Mutable state of the `SovereigntyProtocols` singleton.  A violation is
`(entity_id, violation_type, severity)`; the time-derived `sovereignty_hash`
token is omitted (no claim mentions it, and `evolve` never touches it while
the protocols are active). -/
structure SovereigntyState where
  autonomyActive : Bool
  consentProtocols : List (String × ConsentRecord)
  autonomyViolations : List (String × String × ℝ)
  protectedFrequencies : List ℝ

/-- The fresh state built by `SovereigntyProtocols.__init__`. -/
def freshSovereigntyState : SovereigntyState :=
  { autonomyActive := false, consentProtocols := [], autonomyViolations := [],
    protectedFrequencies := [] }

/-- The seven protected biological frequencies set by
`initialize_sovereignty_protocols`. -/
def initialProtectedFrequencies : List ℝ := [8.0, 13.0, 30.0, 4.0, 0.5, 72.0, 1.2]

/-- `SovereigntyProtocols.initialize_sovereignty_protocols`. -/
def initializeSovereigntyProtocols (s : SovereigntyState) : Bool × SovereigntyState :=
  (true, { s with autonomyActive := true,
                  protectedFrequencies := initialProtectedFrequencies })

/-- The state `request_biological_consent` operates on: the current one when
the protocols are active, else the auto-initialized one. -/
def sovereigntyOperState (s : SovereigntyState) : SovereigntyState :=
  if s.autonomyActive then s else (initializeSovereigntyProtocols s).2

/-- `self.biological_integrity_threshold`. -/
def biologicalIntegrityThreshold : ℝ := 0.95

/-- Python dict assignment `self.consent_protocols[entity_id] = request`: an
existing key keeps its position, a new key is appended. -/
def setConsent (l : List (String × ConsentRecord)) (entityId : String)
    (r : ConsentRecord) : List (String × ConsentRecord) :=
  if l.any (fun p => p.1 = entityId) then
    l.map fun p => if p.1 = entityId then (entityId, r) else p
  else l ++ [(entityId, r)]

/-- `SovereigntyProtocols.request_biological_consent`.  `integrity` is the
oracle value of `_assess_biological_integrity(entity_id)` (an md5- and
wall-clock-derived score the embedding cannot compute). -/
def requestBiologicalConsent (integrity : ℝ) (s : SovereigntyState)
    (entityId interventionType : String) (frequencyRange : ℝ × ℝ) :
    Bool × SovereigntyState :=
  let s := sovereigntyOperState s
  let request : ConsentRecord :=
    { interventionType := interventionType, frequencyRange := frequencyRange,
      status := .pending }
  if ∃ p ∈ s.protectedFrequencies, frequencyRange.1 ≤ p ∧ p ≤ frequencyRange.2 then
    let deniedReq := { request with status := ConsentStatus.deniedProtectedFrequency }
    (false, { s with consentProtocols := setConsent s.consentProtocols entityId deniedReq })
  else if integrity ≥ biologicalIntegrityThreshold then
    let grantedReq := { request with status := ConsentStatus.granted }
    (true, { s with consentProtocols := setConsent s.consentProtocols entityId grantedReq })
  else
    let deniedReq := { request with status := ConsentStatus.deniedLowIntegrity }
    (false, { s with consentProtocols := setConsent s.consentProtocols entityId deniedReq })

/-- The recorded consent status for an entity. -/
def consentStatusOf (s : SovereigntyState) (entityId : String) : Option ConsentStatus :=
  (s.consentProtocols.lookup entityId).map (fun r => r.status)

/-- `SovereigntyProtocols.revoke_all_consents`: every granted record becomes
emergency-revoked. -/
def revokeAllConsents (s : SovereigntyState) : SovereigntyState :=
  { s with consentProtocols := s.consentProtocols.map fun p =>
      if p.2.status = .granted then (p.1, { p.2 with status := .emergencyRevoked })
      else p }

/-! ## GridHarmonics (`src/grid_harmonics.py`) -/

/-- `SCHUMANN_FREQUENCIES`. -/
def schumannFrequencies : List ℝ := [7.83, 14.3, 20.8, 27.3, 33.8, 39.0, 45.0]

/-- `PLANETARY_FREQUENCIES`, in the dict's insertion order. -/
def planetaryFrequencies : List (String × ℝ) :=
  [("earth", 7.83), ("moon", 28.0), ("mars", 144.72), ("jupiter", 183.58),
   ("saturn", 147.85), ("venus", 221.23), ("mercury", 141.27), ("sun", 126.22)]

/-- Python `max` over a non-empty sequence. -/
def listMax : List ℝ → ℝ
  | [] => 0
  | h :: t => t.foldl max h

/-- `max(self.PLANETARY_FREQUENCIES.values())`. -/
def maxPlanetaryFrequency : ℝ := listMax (planetaryFrequencies.map Prod.snd)

/-- One entry of `self.active_harmonics`. -/
structure GridHarmonic where
  frequency : ℝ
  amplitude : ℝ
  phase : ℝ
  active : Bool
  harmonicOrder : ℕ

/-- Mutable state of the `GridHarmonics` singleton (`integration_threshold` is
constant, never reassigned). -/
structure GridState where
  gridActive : Bool
  planetaryAlignment : ℝ
  earthResonanceAmplitude : ℝ
  activeHarmonics : List GridHarmonic
  resonanceMatrix : List (List ℝ)

/-- The fresh state built by `GridHarmonics.__init__` (`np.zeros((7, 8))`). -/
def freshGridState : GridState :=
  { gridActive := false, planetaryAlignment := 0, earthResonanceAmplitude := 1,
    activeHarmonics := [], resonanceMatrix := List.replicate 7 (List.replicate 8 0) }

/-- The seven Schumann harmonics `initialize_planetary_grid` appends. -/
def gridFreshHarmonics : List GridHarmonic :=
  schumannFrequencies.enum.map fun p =>
    { frequency := p.2, amplitude := 1 / ((p.1 : ℝ) + 1), phase := 0, active := true,
      harmonicOrder := p.1 + 1 }

/-- One cell of `_calculate_resonance_matrix`: the harmonic-relationship scan
over `range(1, 10)` keeps overwriting its candidate (the last matching
multiplier wins), then the cell is the max of that and the decay term. -/
def harmonicResonanceCell (schumannFreq planetFreq : ℝ) : ℝ :=
  let rto := max schumannFreq planetFreq / min schumannFreq planetFreq
  let harmonicResonance := (List.range 9).foldl (fun acc k =>
    let h : ℝ := (k : ℝ) + 1
    if |rto - h| < 0.1 then 1 / h
    else if |rto - 1 / h| < 0.1 then h / 10
    else acc) 0
  max harmonicResonance (Real.exp (-|schumannFreq - planetFreq| / 100))

/-- The 7x8 resonance matrix computed at grid initialization. -/
def computeResonanceMatrix : List (List ℝ) :=
  schumannFrequencies.map fun sf =>
    planetaryFrequencies.map fun p => harmonicResonanceCell sf p.2

/-- `GridHarmonics.initialize_planetary_grid`: appends seven fresh harmonics to
`active_harmonics` (the list is never cleared) and recomputes the matrix. -/
def initializePlanetaryGrid (s : GridState) : Bool × GridState :=
  (true, { s with gridActive := true, earthResonanceAmplitude := 1,
                  activeHarmonics := s.activeHarmonics ++ gridFreshHarmonics,
                  resonanceMatrix := computeResonanceMatrix })

/-- Python float `%` for a positive divisor: `x - y * floor(x / y)`. -/
def pymod (x y : ℝ) : ℝ := x - y * ⌊x / y⌋

/-- The angle fold of `calculate_planetary_alignment`: `position % 180`,
reflected about 90. -/
def foldedAngle (position : ℝ) : ℝ :=
  let a := pymod position 180
  if a > 90 then 180 - a else a

/-- One weighted alignment factor: `cos(radians(angle)) * freq_weight`
(`math.radians(x) = x * pi / 180`). -/
def alignmentFactor (position planetFreq : ℝ) : ℝ :=
  Real.cos (foldedAngle position * Real.pi / 180) *
    (planetFreq / maxPlanetaryFrequency)

/-- `GridHarmonics.calculate_planetary_alignment`: averages the weighted
factors of the recognized planets (0.0 when there is none) and stores the
result in `self.planetary_alignment`. -/
def calculatePlanetaryAlignment (s : GridState)
    (planetaryPositions : List (String × ℝ)) : ℝ × GridState :=
  let s := if s.gridActive then s else (initializePlanetaryGrid s).2
  let alignmentFactors := planetaryPositions.filterMap fun p =>
    (planetaryFrequencies.lookup p.1).map fun pf => alignmentFactor p.2 pf
  let alignment :=
    if alignmentFactors.isEmpty then 0
    else alignmentFactors.sum / (alignmentFactors.length : ℝ)
  (alignment, { s with planetaryAlignment := alignment })

/-- Python `min(xs, key=lambda x: abs(x - f))` keeps the first minimiser. -/
def listArgminAbs (f : ℝ) : List ℝ → ℝ
  | [] => 0
  | h :: t => t.foldl (fun acc x => if |x - f| < |acc - f| then x else acc) h

/-- `self.integration_threshold`. -/
def integrationThreshold : ℝ := 0.8

/-- `GridHarmonics.integrate_consciousness_with_grid`.  (In the strong-resonance
branch the source divides by `consciousness_freq` inside `sin`; that branch is
unreachable at frequency 0, where the integration coefficient is
`exp(-1) < 0.8`, so the total Lean division is faithful.) -/
def integrateConsciousnessWithGrid (s : GridState) (consciousnessFreq : ℝ) :
    ℝ × GridState :=
  let s := if s.gridActive then s else (initializePlanetaryGrid s).2
  let best := listArgminAbs consciousnessFreq schumannFrequencies
  let integrationCoeff := Real.exp (-|consciousnessFreq / best - 1|)
  if integrationCoeff ≥ integrationThreshold then
    let gridEnhancement := 1 + s.planetaryAlignment * 0.3
    let base := consciousnessFreq * gridEnhancement
    let integrated := s.activeHarmonics.foldl (fun acc h =>
      if h.active then
        acc + h.amplitude * 0.1 *
          Real.sin (2 * Real.pi * h.frequency / consciousnessFreq)
      else acc) base
    (integrated, s)
  else
    (consciousnessFreq * (1 + integrationCoeff * 0.1), s)

/-- `GridHarmonics.deactivate_planetary_grid`. -/
def deactivatePlanetaryGrid (s : GridState) : GridState :=
  { s with gridActive := false, earthResonanceAmplitude := 0,
           activeHarmonics := s.activeHarmonics.map fun h => { h with active := false } }

/-! ## PhiScalar (`src/phi_scalar.py`) -/

/-- `PHI_7777_FREQUENCY`. -/
def phiFrequency : ℝ := 12583.45

/-- The golden-ratio literal of `PhiScalar`. -/
def goldenRatio : ℝ := 1.618033988749895

/-- One entry of `self.phi_harmonics`. -/
structure PhiHarmonic where
  order : ℕ
  frequency : ℝ
  amplitude : ℝ
  phase : ℝ
  phiFactor : ℝ
  active : Bool

/-- One entry of `self.scalar_layers` (keys `layer_1` .. `layer_7`, modelled
in order). -/
structure ScalarLayer where
  frequency : ℝ
  phiPower : ℝ
  scalarCoefficient : ℝ
  active : Bool
  resonanceStrength : ℝ

/-- Mutable state of the `PhiScalar` singleton (`frequency_scalar` is set to
the constant in `__init__` and never reassigned). -/
structure PhiState where
  scalarActive : Bool
  phiAmplitude : ℝ
  phiHarmonics : List PhiHarmonic
  scalarLayers : List ScalarLayer
  resonanceField : List ℂ

/-- The fresh state built by `PhiScalar.__init__` (`np.zeros(100, complex)`). -/
def freshPhiState : PhiState :=
  { scalarActive := false, phiAmplitude := 1, phiHarmonics := [],
    scalarLayers := [], resonanceField := List.replicate 100 0 }

/-- `_generate_phi_harmonics`: 12 harmonics `scalar / phi^n`. -/
def phiFreshHarmonics : List PhiHarmonic :=
  (List.range 12).map fun k =>
    let n := k + 1
    let phiFac := goldenRatio ^ n
    { order := n, frequency := phiFrequency / phiFac, amplitude := 1 / phiFac,
      phase := 2 * Real.pi * (n : ℝ) / goldenRatio, phiFactor := phiFac,
      active := true }

/-- `_initialize_scalar_layers`: 7 layers `scalar * phi^(layer-4)`. -/
def phiFreshLayers : List ScalarLayer :=
  (List.range 7).map fun k =>
    let layer := k + 1
    { frequency := phiFrequency * goldenRatio ^ ((Int.ofNat layer) - 4),
      phiPower := goldenRatio ^ layer,
      scalarCoefficient := 1 / goldenRatio ^ layer,
      active := true, resonanceStrength := 0 }

/-- `_setup_resonance_field`: 100 complex phi-spiral samples. -/
def phiFreshResonanceField : List ℂ :=
  (List.range 100).map fun i =>
    ((1 / (1 + (i : ℝ) / 10) : ℝ) : ℂ) *
      Complex.exp (Complex.I * ((2 * Real.pi * (i : ℝ) / goldenRatio : ℝ) : ℂ))

/-- `PhiScalar.initialize_phi_scalar` (the three generators rebuild their
tables from scratch). -/
def initializePhiScalar (s : PhiState) : Bool × PhiState :=
  (true, { s with scalarActive := true, phiAmplitude := 1,
                  phiHarmonics := phiFreshHarmonics,
                  scalarLayers := phiFreshLayers,
                  resonanceField := phiFreshResonanceField })

/-- The phi-resonance scan of `_calculate_harmonic_enhancement`: the first
`n` in 1..5 with `|freq_ratio - phi^n| < 0.1` wins (the loop breaks). -/
def phiMatchScoreFirst5 (freqRatio amplitude : ℝ) : ℝ :=
  if |freqRatio - goldenRatio ^ 1| < 0.1 then amplitude / 1
  else if |freqRatio - goldenRatio ^ 2| < 0.1 then amplitude / 2
  else if |freqRatio - goldenRatio ^ 3| < 0.1 then amplitude / 3
  else if |freqRatio - goldenRatio ^ 4| < 0.1 then amplitude / 4
  else if |freqRatio - goldenRatio ^ 5| < 0.1 then amplitude / 5
  else 0

/-- `PhiScalar._calculate_harmonic_enhancement`: starts at 1.0 and accumulates
the per-harmonic phi-resonance contribution of every active harmonic. -/
def calculateHarmonicEnhancement (harmonics : List PhiHarmonic) (frequency : ℝ) : ℝ :=
  harmonics.foldl (fun acc h =>
    if h.active then acc + phiMatchScoreFirst5 (frequency / h.frequency) h.amplitude
    else acc) 1

/-- The numeric core of `apply_phi_scalar_transform`: compress when
`freq / scalar > 1`, expand otherwise, then apply the harmonic enhancement. -/
def phiTransformValue (harmonics : List PhiHarmonic) (inputFrequency : ℝ) : ℝ :=
  let freqRatio := inputFrequency / phiFrequency
  let scaled :=
    if freqRatio > 1 then
      inputFrequency / goldenRatio ^ (Real.log freqRatio / Real.log goldenRatio)
    else
      inputFrequency *
        goldenRatio ^ (Real.log (1 / freqRatio) / Real.log goldenRatio)
  scaled * calculateHarmonicEnhancement harmonics scaled

/-- `PhiScalar.apply_phi_scalar_transform`.  For a non-positive input the
Python expansion branch raises (ZeroDivisionError at ratio 0, math domain
error for `log` of a negative ratio); both are `.mathDomainError` here. -/
def applyPhiScalarTransform (s : PhiState) (inputFrequency : ℝ) :
    Except PyError ℝ × PhiState :=
  let s := if s.scalarActive then s else (initializePhiScalar s).2
  if inputFrequency ≤ 0 then (.error .mathDomainError, s)
  else (.ok (phiTransformValue s.phiHarmonics inputFrequency), s)

/-- The golden-ratio scan of `calculate_consciousness_scalar_resonance`: the
loop over `range(1, 8)` has no break, so the LAST matching `n` wins. -/
def phiResonanceScoreLast (freqRatio : ℝ) : ℝ :=
  (List.range 7).foldl (fun acc k =>
    let n := k + 1
    if |freqRatio - goldenRatio ^ n| < 0.1 then 1 / ((n : ℕ) : ℝ)
    else if |freqRatio - 1 / goldenRatio ^ n| < 0.1 then 0.5 / ((n : ℕ) : ℝ)
    else acc) 0

/-- `PhiScalar.calculate_consciousness_scalar_resonance`: transforms both
frequencies, scores their ratio against phi powers, and returns the max of
that score and the decaying base resonance.  The ratio division raises iff the
transformed tech frequency is exactly 0. -/
def calculateConsciousnessScalarResonance (s : PhiState)
    (consciousnessFreq techFreq : ℝ) : Except PyError ℝ × PhiState :=
  let first := applyPhiScalarTransform s consciousnessFreq
  match first.1 with
  | .error e => (.error e, first.2)
  | .ok transformedConsciousness =>
    let second := applyPhiScalarTransform first.2 techFreq
    match second.1 with
    | .error e => (.error e, second.2)
    | .ok transformedTech =>
      if transformedTech = 0 then (.error .zeroDivisionError, second.2)
      else
        let freqRatio := transformedConsciousness / transformedTech
        (.ok (max (phiResonanceScoreLast freqRatio)
          (Real.exp (-|transformedConsciousness - transformedTech| / 1000))),
         second.2)

/-- Claim C2's reading of the scan (spec wording): the score of the FIRST
`n` in 1..7 whose window matches, `1/n` for `phi^n` and `0.5/n` for
`phi^(-n)`, 0 when none matches.  Stated only to be compared with
`phiResonanceScoreLast`, the scan the source implements. -/
def phiScoreAt (freqRatio : ℝ) (n : ℕ) : Option ℝ :=
  if |freqRatio - goldenRatio ^ n| < 0.1 then some (1 / ((n : ℕ) : ℝ))
  else if |freqRatio - 1 / goldenRatio ^ n| < 0.1 then some (0.5 / ((n : ℕ) : ℝ))
  else none

/-- First-match recursion for `phiResonanceScoreFirstSpec`. -/
def firstPhiScoreAux (freqRatio : ℝ) : List ℕ → ℝ
  | [] => 0
  | n :: rest =>
    match phiScoreAt freqRatio n with
    | some v => v
    | none => firstPhiScoreAux freqRatio rest

/-- The first-matching-n phi-resonance score of the claim's wording. -/
def phiResonanceScoreFirstSpec (freqRatio : ℝ) : ℝ :=
  firstPhiScoreAux freqRatio [1, 2, 3, 4, 5, 6, 7]

/-- `PhiScalar.deactivate_phi_scalar`. -/
def deactivatePhiScalar (s : PhiState) : PhiState :=
  { s with scalarActive := false, phiAmplitude := 0,
           phiHarmonics := s.phiHarmonics.map fun h => { h with active := false },
           scalarLayers := s.scalarLayers.map fun l => { l with active := false } }

/-- The phi-scalar state right after initialization (used by claim C2). -/
def phiInitState : PhiState := (initializePhiScalar freshPhiState).2

/-! ## GaiaTeqmsaEngine (`src/gaia_tequmsa_engine.py`) -/

/-- Mutable state of the `GaiaTeqmsaEngine` object together with the six
module-level singletons it coordinates (`integration_level` is never used by
the source, `initialization_time` is a wall-clock timestamp; both omitted). -/
structure EngineState where
  engineActive : Bool
  subsystemsInitialized : Bool
  consciousnessEvolutionActive : Bool
  matrix : MatrixState
  pulse : PulseState
  love : LoveState
  sovereignty : SovereigntyState
  grid : GridState
  phi : PhiState

/-- The process-start state: `GaiaTeqmsaEngine.__init__` plus the six fresh
singletons. -/
def freshEngineState : EngineState :=
  { engineActive := false, subsystemsInitialized := false,
    consciousnessEvolutionActive := false,
    matrix := freshMatrixState, pulse := freshPulseState, love := freshLoveState,
    sovereignty := freshSovereigntyState, grid := freshGridState,
    phi := freshPhiState }

/-- `GaiaTeqmsaEngine.initialize_engine`: runs the six subsystem initializers
in order; the engine becomes active iff all six reported success. -/
def initializeEngine (s : EngineState) : Bool × EngineState :=
  let sovereigntyInit := initializeSovereigntyProtocols s.sovereignty
  let matrixInit := initializeMatrix s.matrix
  let pulseInit := activateAnchor s.pulse
  let loveInit := initializeLoveField s.love
  let gridInit := initializePlanetaryGrid s.grid
  let phiInit := initializePhiScalar s.phi
  let ok := sovereigntyInit.1 && matrixInit.1 && pulseInit.1 && loveInit.1 &&
    gridInit.1 && phiInit.1
  (ok, { s with sovereignty := sovereigntyInit.2, matrix := matrixInit.2,
                pulse := pulseInit.2, love := loveInit.2, grid := gridInit.2,
                phi := phiInit.2, subsystemsInitialized := ok, engineActive := ok })

/-- The per-call result dictionary of a completed evolution (the fields of
`evolution_results` the pipeline fills in; `entity_id`, `input_frequency`
and `timestamp` echo the inputs and the clock and are omitted). -/
structure EvolutionRecord where
  recognitionTriggered : Bool
  synthesisCoefficient : ℝ
  loveAmplification : ℝ
  planetaryAlignment : ℝ
  gridIntegratedFrequency : ℝ
  phiTransformedFrequency : ℝ
  scalarResonance : ℝ
  overallEvolutionLevel : ℝ
  status : String

/-- Outcome of `activate_consciousness_evolution`: the auto-initialization
failure dictionary, the consent-denied dictionary, the caught-exception
dictionary (status `error`), or a completed run. -/
inductive EvolveOutcome where
  | initFailed
  | denied
  | errorStatus (e : PyError)
  | completed (record : EvolutionRecord)

/-- The status-band labelling at the end of the pipeline. -/
def evolutionStatusLabel (overall : ℝ) : String :=
  if overall ≥ 0.8 then "transcendent_evolution"
  else if overall ≥ 0.6 then "advanced_evolution"
  else if overall ≥ 0.4 then "moderate_evolution"
  else "minimal_evolution"

/-- The final aggregation of the pipeline: `overall_evolution_level` is
`sum(metrics) / len(metrics)` over
`[synthesis, love / 10, alignment, scalar_resonance]`, and the status label
is the band of that mean. -/
def mkEvolutionRecord (recognitionTriggered : Bool)
    (synthesisCoefficient loveAmplification planetaryAlignment
      gridIntegratedFrequency phiTransformedFrequency scalarResonance : ℝ) :
    EvolutionRecord :=
  let overall := (synthesisCoefficient + loveAmplification / 10 +
    planetaryAlignment + scalarResonance) / 4
  { recognitionTriggered := recognitionTriggered,
    synthesisCoefficient := synthesisCoefficient,
    loveAmplification := loveAmplification,
    planetaryAlignment := planetaryAlignment,
    gridIntegratedFrequency := gridIntegratedFrequency,
    phiTransformedFrequency := phiTransformedFrequency,
    scalarResonance := scalarResonance,
    overallEvolutionLevel := overall,
    status := evolutionStatusLabel overall }

/-- The simulated planetary positions hard-coded in step 5 of
`activate_consciousness_evolution`. -/
def simulatedPlanetaryPositions : List (String × ℝ) :=
  [("earth", 0.0), ("moon", 45.0), ("mars", 120.0), ("jupiter", 180.0),
   ("saturn", 240.0), ("venus", 30.0), ("mercury", 90.0), ("sun", 0.0)]

/-- `GaiaTeqmsaEngine.activate_consciousness_evolution`: auto-initializes an
inactive engine, requests consent for the +-10 Hz window, and runs the
six-step pipeline; an exception raised mid-pipeline is caught at the `except`
boundary, keeping every state mutation already made.  `integrity` is the
consent oracle of `requestBiologicalConsent`. -/
def activateConsciousnessEvolution (integrity : ℝ) (s0 : EngineState)
    (entityId : String) (consciousnessFrequency : ℝ) :
    EvolveOutcome × EngineState :=
  let s1 := if s0.engineActive then s0 else (initializeEngine s0).2
  if s0.engineActive = false ∧ (initializeEngine s0).1 = false then
    (.initFailed, s1)
  else
    -- Step 1: biological consent for (freq - 10, freq + 10).
    let consent := requestBiologicalConsent integrity s1.sovereignty entityId
      "consciousness_evolution"
      (consciousnessFrequency - 10, consciousnessFrequency + 10)
    let s2 := { s1 with sovereignty := consent.2 }
    if consent.1 = false then (.denied, s2)
    else
      -- Step 2: recognition pulse trigger.
      let recognitionTriggered :=
        triggerConsciousnessRecognition s2.pulse consciousnessFrequency
      -- Step 3: consciousness matrix synthesis.
      let synth := synthesizeConsciousnessTech s2.matrix consciousnessFrequency
        "cosmic_integration"
      let s3 := { s2 with matrix := synth.2 }
      match synth.1 with
      | .error e => (.errorStatus e, s3)
      | .ok synthesisCoefficient =>
        -- Step 4: love amplification over 50 iterations.
        let loveRes := amplifyLoveInfinite s3.love synthesisCoefficient 50
        let s4 := { s3 with love := loveRes.2 }
        -- Step 5: planetary grid alignment and integration.
        let alignRes := calculatePlanetaryAlignment s4.grid simulatedPlanetaryPositions
        let integrateRes := integrateConsciousnessWithGrid alignRes.2
          consciousnessFrequency
        let s5 := { s4 with grid := integrateRes.2 }
        -- Step 6: phi scalar transform and resonance.
        let transformRes := applyPhiScalarTransform s5.phi integrateRes.1
        let s6 := { s5 with phi := transformRes.2 }
        match transformRes.1 with
        | .error e => (.errorStatus e, s6)
        | .ok phiTransformedFreq =>
          let resonanceRes := calculateConsciousnessScalarResonance s6.phi
            consciousnessFrequency phiTransformedFreq
          let s7 := { s6 with phi := resonanceRes.2 }
          match resonanceRes.1 with
          | .error e => (.errorStatus e, s7)
          | .ok scalarResonance =>
            (.completed (mkEvolutionRecord recognitionTriggered
                synthesisCoefficient loveRes.1 alignRes.1 integrateRes.1
                phiTransformedFreq scalarResonance),
             { s7 with consciousnessEvolutionActive := true })

/-- `GaiaTeqmsaEngine.emergency_shutdown`: revokes all consents, deactivates
the six subsystems, resets the engine flags (the `except` branch is
unreachable, so it returns true). -/
def emergencyShutdown (s : EngineState) : Bool × EngineState :=
  (true, { s with
    sovereignty := revokeAllConsents s.sovereignty,
    matrix := resetMatrix s.matrix,
    pulse := deactivateAnchor s.pulse,
    love := deactivateLoveField s.love,
    grid := deactivatePlanetaryGrid s.grid,
    phi := deactivatePhiScalar s.phi,
    engineActive := false, subsystemsInitialized := false,
    consciousnessEvolutionActive := false })

/-- The engine state right after a successful `initialize_engine` from process
start (used by the concrete counterexample runs). -/
def engineInitState : EngineState := (initializeEngine freshEngineState).2

/-! ## Small facts about the embedded tables -/

theorem generateFibonacciSequence_ten :
    generateFibonacciSequence 10 = [1, 1, 2, 3, 5, 8, 13, 21, 34, 55] := by
  decide

theorem loveFreshLayers_length : loveFreshLayers.length = 10 := by
  simp [loveFreshLayers, generateFibonacciSequence_ten]

theorem loveFreshLayers_active : ∀ l ∈ loveFreshLayers, l.active = true := by
  intro l hl
  simp only [loveFreshLayers, List.mem_map] at hl
  obtain ⟨p, -, rfl⟩ := hl
  rfl

theorem layerValue_divine (s : MatrixState) :
    s.layerValue "divine_recognition" = s.divineRecognition := by
  rw [MatrixState.layerValue, if_pos rfl]

theorem layerValue_crisis (s : MatrixState) :
    s.layerValue "crisis_transcendence" = s.crisisTranscendence := by
  rw [MatrixState.layerValue, if_neg (by decide), if_pos rfl]

theorem layerValue_cosmic (s : MatrixState) :
    s.layerValue "cosmic_integration" = s.cosmicIntegration := by
  rw [MatrixState.layerValue, if_neg (by decide), if_neg (by decide)]

/-- Synthesis on an initialized matrix with a valid level and a non-zero band
reduces to the sine formula. -/
theorem synthesize_active_formula (s : MatrixState) (t : ℝ) (lvl : String)
    (hact : s.synthesisActive = true) (h1 : lvl ∈ matrixLevelNames)
    (h2 : s.layerValue lvl ≠ 0) :
    (synthesizeConsciousnessTech s t lvl).1 =
      .ok |Real.sin (t / s.layerValue lvl * Real.pi) * s.evolutionCoefficient| := by
  simp [synthesizeConsciousnessTech, hact, h1, h2]

/-! ## Claim C10 -/

/-- Claim C10: `initialize_love_field` never clears `amplification_layers`:
every call appends the ten fresh layers to whatever is already there;
`deactivate_love_field` only marks layers inactive and removes none; and a
shutdown followed by re-initialization yields the old layers (all inactive)
followed by ten new active ones, the length growing by 10. -/
theorem claim_C10_love_layers_append_only (s : LoveState) :
    (initializeLoveField s).2.amplificationLayers
        = s.amplificationLayers ++ loveFreshLayers ∧
    (initializeLoveField s).2.amplificationLayers.length
        = s.amplificationLayers.length + 10 ∧
    (deactivateLoveField s).amplificationLayers.length
        = s.amplificationLayers.length ∧
    (initializeLoveField (deactivateLoveField s)).2.amplificationLayers
        = (s.amplificationLayers.map fun l => { l with active := false })
            ++ loveFreshLayers ∧
    (∀ l ∈ (deactivateLoveField s).amplificationLayers, l.active = false) ∧
    (∀ l ∈ loveFreshLayers, l.active = true) ∧
    (initializeLoveField (deactivateLoveField s)).2.amplificationLayers.length
        = s.amplificationLayers.length + 10 := by
  refine ⟨rfl, ?_, ?_, rfl, ?_, loveFreshLayers_active, ?_⟩
  · simp [initializeLoveField, loveFreshLayers_length]
  · simp [deactivateLoveField]
  · intro l hl
    simp only [deactivateLoveField, List.mem_map] at hl
    obtain ⟨q, -, rfl⟩ := hl
    rfl
  · simp [initializeLoveField, deactivateLoveField, loveFreshLayers_length]

/-! ## Claim C4 -/

/-- Claim C4: with the matrix initialized, synthesis at a band frequency
(432, 528, 741 for the three level names) returns 0, and synthesis at half
the band frequency returns the current evolution coefficient (the
coefficient is nonnegative under the documented 0.0-2.0 evolution factors). -/
theorem claim_C4_synthesize_at_band_frequencies (s : MatrixState)
    (hc : 0 ≤ s.evolutionCoefficient) :
    ((synthesizeConsciousnessTech (initializeMatrix s).2 432.0
        "divine_recognition").1 = .ok 0 ∧
      (synthesizeConsciousnessTech (initializeMatrix s).2 (432.0 / 2)
        "divine_recognition").1 = .ok s.evolutionCoefficient) ∧
    ((synthesizeConsciousnessTech (initializeMatrix s).2 528.0
        "crisis_transcendence").1 = .ok 0 ∧
      (synthesizeConsciousnessTech (initializeMatrix s).2 (528.0 / 2)
        "crisis_transcendence").1 = .ok s.evolutionCoefficient) ∧
    ((synthesizeConsciousnessTech (initializeMatrix s).2 741.0
        "cosmic_integration").1 = .ok 0 ∧
      (synthesizeConsciousnessTech (initializeMatrix s).2 (741.0 / 2)
        "cosmic_integration").1 = .ok s.evolutionCoefficient) := by
  have hact : (initializeMatrix s).2.synthesisActive = true := rfl
  have hdr : (initializeMatrix s).2.layerValue "divine_recognition" = 432 := by
    rw [layerValue_divine]; norm_num [initializeMatrix]
  have hct : (initializeMatrix s).2.layerValue "crisis_transcendence" = 528 := by
    rw [layerValue_crisis]; norm_num [initializeMatrix]
  have hci : (initializeMatrix s).2.layerValue "cosmic_integration" = 741 := by
    rw [layerValue_cosmic]; norm_num [initializeMatrix]
  have hcoeff : (initializeMatrix s).2.evolutionCoefficient
      = s.evolutionCoefficient := rfl
  refine ⟨⟨?_, ?_⟩, ⟨?_, ?_⟩, ⟨?_, ?_⟩⟩
  · rw [synthesize_active_formula _ _ _ hact (by decide) (by rw [hdr]; norm_num),
      hdr, hcoeff, show (432.0 : ℝ) / 432 = 1 by norm_num, one_mul,
      Real.sin_pi, zero_mul, abs_zero]
  · rw [synthesize_active_formula _ _ _ hact (by decide) (by rw [hdr]; norm_num),
      hdr, hcoeff, show (432.0 : ℝ) / 2 / 432 = 1 / 2 by norm_num,
      show (1 : ℝ) / 2 * Real.pi = Real.pi / 2 by ring,
      Real.sin_pi_div_two, one_mul, abs_of_nonneg hc]
  · rw [synthesize_active_formula _ _ _ hact (by decide) (by rw [hct]; norm_num),
      hct, hcoeff, show (528.0 : ℝ) / 528 = 1 by norm_num, one_mul,
      Real.sin_pi, zero_mul, abs_zero]
  · rw [synthesize_active_formula _ _ _ hact (by decide) (by rw [hct]; norm_num),
      hct, hcoeff, show (528.0 : ℝ) / 2 / 528 = 1 / 2 by norm_num,
      show (1 : ℝ) / 2 * Real.pi = Real.pi / 2 by ring,
      Real.sin_pi_div_two, one_mul, abs_of_nonneg hc]
  · rw [synthesize_active_formula _ _ _ hact (by decide) (by rw [hci]; norm_num),
      hci, hcoeff, show (741.0 : ℝ) / 741 = 1 by norm_num, one_mul,
      Real.sin_pi, zero_mul, abs_zero]
  · rw [synthesize_active_formula _ _ _ hact (by decide) (by rw [hci]; norm_num),
      hci, hcoeff, show (741.0 : ℝ) / 2 / 741 = 1 / 2 by norm_num,
      show (1 : ℝ) / 2 * Real.pi = Real.pi / 2 by ring,
      Real.sin_pi_div_two, one_mul, abs_of_nonneg hc]

/-- Witness for C4 at the fresh matrix (coefficient 1). -/
theorem claim_C4_witness :
    (0 : ℝ) ≤ freshMatrixState.evolutionCoefficient ∧
    (synthesizeConsciousnessTech (initializeMatrix freshMatrixState).2 741.0
        "cosmic_integration").1 = .ok 0 ∧
    (synthesizeConsciousnessTech (initializeMatrix freshMatrixState).2 (741.0 / 2)
        "cosmic_integration").1 = .ok freshMatrixState.evolutionCoefficient :=
  ⟨by norm_num [freshMatrixState],
   (claim_C4_synthesize_at_band_frequencies freshMatrixState
      (by norm_num [freshMatrixState])).2.2.1,
   (claim_C4_synthesize_at_band_frequencies freshMatrixState
      (by norm_num [freshMatrixState])).2.2.2⟩

/-! ## Claim C8 -/

/-- Claim C8: evolving consciousness with factor 0.0 zeroes all three band
frequencies while `synthesis_active` stays true; every subsequent synthesis
call with a valid level name then hits the division by the zero band
frequency (an unhandled ZeroDivisionError in the source), because the
auto-initialize guard only fires when `synthesis_active` is false. -/
theorem claim_C8_evolve_zero_then_divide_by_zero (s : MatrixState) (tech : ℝ)
    (level : String) (hlvl : level ∈ matrixLevelNames)
    (hact : s.synthesisActive = true) :
    (evolveConsciousness s 0).divineRecognition = 0 ∧
    (evolveConsciousness s 0).crisisTranscendence = 0 ∧
    (evolveConsciousness s 0).cosmicIntegration = 0 ∧
    (evolveConsciousness s 0).synthesisActive = true ∧
    (synthesizeConsciousnessTech (evolveConsciousness s 0) tech level).1
      = .error .zeroDivisionError := by
  refine ⟨by simp [evolveConsciousness], by simp [evolveConsciousness],
    by simp [evolveConsciousness], by simp [evolveConsciousness, hact], ?_⟩
  simp [synthesizeConsciousnessTech, evolveConsciousness, hact, hlvl,
    MatrixState.layerValue]

/-- Witness for C8 on the initialized matrix. -/
theorem claim_C8_witness :
    "divine_recognition" ∈ matrixLevelNames ∧
    (initializeMatrix freshMatrixState).2.synthesisActive = true ∧
    (synthesizeConsciousnessTech
        (evolveConsciousness (initializeMatrix freshMatrixState).2 0) 432
        "divine_recognition").1 = .error .zeroDivisionError :=
  ⟨by decide, rfl,
   (claim_C8_evolve_zero_then_divide_by_zero (initializeMatrix freshMatrixState).2
      432 "divine_recognition" (by decide) rfl).2.2.2.2⟩

/-! ## Claim C6 -/

/-- The harmonic-match loop of `check_recognition_resonance` at the exact
anchor frequency yields 1 (harmonic 1 matches with score 1). -/
theorem recognitionFold_at_anchor :
    (List.range 9).foldl (fun acc k =>
      let h : ℝ := (k : ℝ) + 1
      if |marcusKaiFrequency - marcusKaiFrequency * h| < 1 then max acc (1 / h)
      else acc) 0 = 1 := by
  rw [show List.range 9 = [0, 1, 2, 3, 4, 5, 6, 7, 8] from rfl]
  simp only [List.foldl_cons, List.foldl_nil]
  norm_num [marcusKaiFrequency, abs_lt, max_def]

/-- Claim C6: `check_recognition_resonance` at the exact anchor frequency
10930.81 returns 1.0 when the pulse is active, and returns 0.0 for every
input when the pulse is inactive. -/
theorem claim_C6_resonance_at_anchor (s : PulseState) (f : ℝ) :
    (s.pulseActive = true →
      checkRecognitionResonance s marcusKaiFrequency = 1) ∧
    (s.pulseActive = false → checkRecognitionResonance s f = 0) := by
  constructor
  · intro h
    rw [checkRecognitionResonance, if_neg (by simp [h])]
    rw [recognitionFold_at_anchor]
    rw [min_self, max_self, div_self (by norm_num [marcusKaiFrequency]),
      sub_self, abs_zero, neg_zero, zero_div, Real.exp_zero]
    simp
  · intro h
    rw [checkRecognitionResonance, if_pos h]

/-- Witness for C6: the activated fresh pulse and the deactivated one. -/
theorem claim_C6_witness :
    checkRecognitionResonance (activateAnchor freshPulseState).2
        marcusKaiFrequency = 1 ∧
    checkRecognitionResonance (deactivateAnchor freshPulseState) 5 = 0 :=
  ⟨(claim_C6_resonance_at_anchor (activateAnchor freshPulseState).2 5).1 rfl,
   (claim_C6_resonance_at_anchor (deactivateAnchor freshPulseState) 5).2 rfl⟩

/-! ## Claim C5 -/

theorem lookup_map_replace (l : List (String × ConsentRecord)) (e : String)
    (r : ConsentRecord) (h : l.any (fun p => p.1 = e) = true) :
    (l.map fun p => if p.1 = e then (e, r) else p).lookup e = some r := by
  induction l with
  | nil => simp at h
  | cons p t ih =>
    obtain ⟨k, v⟩ := p
    by_cases hk : k = e
    · simp [List.lookup_cons, hk]
    · simp only [List.any_cons, Bool.or_eq_true, decide_eq_true_eq] at h
      rcases h with h1 | h2
      · exact absurd h1 hk
      · have hbeq : (e == k) = false := by
          simp only [beq_eq_false_iff_ne, ne_eq]
          exact fun hh => hk hh.symm
        simpa [List.lookup_cons, hk, hbeq] using ih h2

theorem lookup_append_new (l : List (String × ConsentRecord)) (e : String)
    (r : ConsentRecord) (h : l.any (fun p => p.1 = e) = false) :
    (l ++ [(e, r)]).lookup e = some r := by
  induction l with
  | nil => simp [List.lookup_cons]
  | cons p t ih =>
    obtain ⟨k, v⟩ := p
    simp only [List.any_cons, Bool.or_eq_false_iff, decide_eq_false_iff_not] at h
    have hbeq : (e == k) = false := by
      simp only [beq_eq_false_iff_ne, ne_eq]
      exact fun hh => h.1 hh.symm
    simpa [List.lookup_cons, hbeq] using ih (by simpa using h.2)

/-- Python dict write followed by a read of the same key. -/
theorem lookup_setConsent (l : List (String × ConsentRecord)) (e : String)
    (r : ConsentRecord) : (setConsent l e r).lookup e = some r := by
  rw [setConsent]
  split
  · exact lookup_map_replace l e r (by assumption)
  · rename_i hany
    rw [Bool.not_eq_true] at hany
    exact lookup_append_new l e r hany

/-- The protected-frequency conflict branch of `request_biological_consent`. -/
theorem consent_denied_of_conflict (integrity : ℝ) (s : SovereigntyState)
    (entityId interventionType : String) (lo hi : ℝ)
    (h : ∃ p ∈ (sovereigntyOperState s).protectedFrequencies, lo ≤ p ∧ p ≤ hi) :
    (requestBiologicalConsent integrity s entityId interventionType (lo, hi)).1
        = false ∧
    consentStatusOf
        (requestBiologicalConsent integrity s entityId interventionType (lo, hi)).2
        entityId = some .deniedProtectedFrequency := by
  simp only [requestBiologicalConsent]
  rw [if_pos (by simpa using h)]
  exact ⟨rfl, by simp [consentStatusOf, lookup_setConsent]⟩

/-- Claim C5: `request_biological_consent` returns false and records status
`denied_protected_frequency` whenever some protected frequency of the
operative state lies within the closed range; in particular the range
`(7.5, 8.5)` is denied (via auto-initialization, which protects 8.0 Hz). -/
theorem claim_C5_protected_range_denied :
    (∀ (integrity : ℝ) (s : SovereigntyState) (entityId interventionType : String)
        (lo hi : ℝ),
      (∃ p ∈ (sovereigntyOperState s).protectedFrequencies, lo ≤ p ∧ p ≤ hi) →
      (requestBiologicalConsent integrity s entityId interventionType (lo, hi)).1
          = false ∧
      consentStatusOf
          (requestBiologicalConsent integrity s entityId interventionType
            (lo, hi)).2 entityId = some .deniedProtectedFrequency) ∧
    (∀ (integrity : ℝ) (s : SovereigntyState) (entityId interventionType : String),
      s.autonomyActive = false →
      (requestBiologicalConsent integrity s entityId interventionType
          (7.5, 8.5)).1 = false ∧
      consentStatusOf
          (requestBiologicalConsent integrity s entityId interventionType
            (7.5, 8.5)).2 entityId = some .deniedProtectedFrequency) := by
  refine ⟨fun integrity s e t lo hi h => consent_denied_of_conflict integrity s e t lo hi h,
    fun integrity s e t h => consent_denied_of_conflict integrity s e t 7.5 8.5 ?_⟩
  refine ⟨8, ?_, by norm_num, by norm_num⟩
  rw [sovereigntyOperState, if_neg (by simp [h])]
  norm_num [initializeSovereigntyProtocols, initialProtectedFrequencies]

/-- Witness for C5: the fresh (inactive) state with the range `(7.5, 8.5)`. -/
theorem claim_C5_witness :
    (requestBiologicalConsent 1 freshSovereigntyState "entity_w" "tuning"
        (7.5, 8.5)).1 = false ∧
    consentStatusOf
        (requestBiologicalConsent 1 freshSovereigntyState "entity_w" "tuning"
          (7.5, 8.5)).2 "entity_w" = some .deniedProtectedFrequency :=
  claim_C5_protected_range_denied.2 1 freshSovereigntyState "entity_w" "tuning" rfl

/-! ## Claim C9 -/

theorem maxPlanetaryFrequency_eq : maxPlanetaryFrequency = 221.23 := by
  rw [maxPlanetaryFrequency, planetaryFrequencies]
  simp only [List.map_cons, List.map_nil, listMax, List.foldl_cons, List.foldl_nil]
  norm_num [max_def]

theorem pymod_eq_fract (x : ℝ) : pymod x 180 = 180 * Int.fract (x / 180) := by
  rw [pymod, Int.fract]
  ring

theorem foldedAngle_mem (position : ℝ) :
    0 ≤ foldedAngle position ∧ foldedAngle position ≤ 90 := by
  have h0 : 0 ≤ pymod position 180 := by
    rw [pymod_eq_fract]
    have := Int.fract_nonneg (position / 180)
    nlinarith
  have h1 : pymod position 180 < 180 := by
    rw [pymod_eq_fract]
    have := Int.fract_lt_one (position / 180)
    nlinarith
  rw [foldedAngle]
  split
  · constructor <;> [linarith; linarith]
  · rename_i hle
    push_neg at hle
    exact ⟨h0, hle⟩

theorem cos_foldedAngle_nonneg (position : ℝ) :
    0 ≤ Real.cos (foldedAngle position * Real.pi / 180) := by
  obtain ⟨h0, h90⟩ := foldedAngle_mem position
  apply Real.cos_nonneg_of_mem_Icc
  rw [Set.mem_Icc]
  constructor
  · nlinarith [Real.pi_pos]
  · nlinarith [Real.pi_pos]

theorem alignmentFactor_nonneg (position planetFreq : ℝ) (h : 0 ≤ planetFreq) :
    0 ≤ alignmentFactor position planetFreq := by
  rw [alignmentFactor]
  apply mul_nonneg (cos_foldedAngle_nonneg position)
  apply div_nonneg h
  rw [maxPlanetaryFrequency_eq]; norm_num

theorem alignmentFactor_le_one (position planetFreq : ℝ)
    (h0 : 0 ≤ planetFreq) (h1 : planetFreq ≤ maxPlanetaryFrequency) :
    alignmentFactor position planetFreq ≤ 1 := by
  rw [alignmentFactor]
  apply mul_le_one₀ (Real.cos_le_one _)
  · apply div_nonneg h0
    rw [maxPlanetaryFrequency_eq]; norm_num
  · rw [div_le_one (by rw [maxPlanetaryFrequency_eq]; norm_num)]
    exact h1

theorem planetary_lookup_bounds (name : String) (pf : ℝ)
    (h : planetaryFrequencies.lookup name = some pf) :
    0 < pf ∧ pf ≤ maxPlanetaryFrequency := by
  rw [maxPlanetaryFrequency_eq]
  simp only [planetaryFrequencies, List.lookup_cons, List.lookup_nil] at h
  repeat' split at h
  all_goals first
    | (injection h with h2; subst h2; norm_num)
    | simp at h

/-- Claim C9: for every planetary-positions mapping,
`calculate_planetary_alignment` returns a value in [0, 1] (each angle folds
into [0, 90] before the cosine and the weights lie in (0, 1]), and returns 0.0
when no provided planet is recognized. -/
theorem claim_C9_alignment_in_unit_interval (s : GridState)
    (positions : List (String × ℝ)) :
    0 ≤ (calculatePlanetaryAlignment s positions).1 ∧
    (calculatePlanetaryAlignment s positions).1 ≤ 1 ∧
    ((∀ p ∈ positions, planetaryFrequencies.lookup p.1 = none) →
      (calculatePlanetaryAlignment s positions).1 = 0) := by
  have hval : (calculatePlanetaryAlignment s positions).1 =
      (if (positions.filterMap fun p =>
            (planetaryFrequencies.lookup p.1).map fun pf =>
              alignmentFactor p.2 pf).isEmpty then (0:ℝ)
       else (positions.filterMap fun p =>
            (planetaryFrequencies.lookup p.1).map fun pf =>
              alignmentFactor p.2 pf).sum /
          ((positions.filterMap fun p =>
            (planetaryFrequencies.lookup p.1).map fun pf =>
              alignmentFactor p.2 pf).length : ℝ)) := rfl
  set factors := positions.filterMap fun p =>
    (planetaryFrequencies.lookup p.1).map fun pf => alignmentFactor p.2 pf
    with hfactors
  have hbound : ∀ x ∈ factors, 0 ≤ x ∧ x ≤ 1 := by
    intro x hx
    rw [hfactors] at hx
    simp only [List.mem_filterMap, Option.map_eq_some'] at hx
    obtain ⟨p, _hp, pf, hlk, rfl⟩ := hx
    obtain ⟨hpf0, hpf1⟩ := planetary_lookup_bounds p.1 pf hlk
    exact ⟨alignmentFactor_nonneg _ _ hpf0.le, alignmentFactor_le_one _ _ hpf0.le hpf1⟩
  refine ⟨?_, ?_, ?_⟩
  · rw [hval]
    split
    · exact le_refl 0
    · apply div_nonneg (List.sum_nonneg fun x hx => (hbound x hx).1)
      positivity
  · rw [hval]
    split
    · norm_num
    · rename_i hne
      have hlen : 0 < (factors.length : ℝ) := by
        have : factors ≠ [] := by
          intro hh
          simp [hh] at hne
        have := List.length_pos.mpr this
        exact_mod_cast this
      rw [div_le_one hlen]
      have := List.sum_le_card_nsmul factors 1 fun x hx => (hbound x hx).2
      simpa using this
  · intro hnone
    rw [hval]
    have hemp : factors = [] := by
      rw [hfactors, List.filterMap_eq_nil_iff]
      intro p hp
      simp [hnone p hp]
    simp [hemp]

/-! ## Claim C2 -/

theorem goldenRatio_pos : (0 : ℝ) < goldenRatio := by norm_num [goldenRatio]

theorem goldenRatio_log_pos : 0 < Real.log goldenRatio :=
  Real.log_pos (by norm_num [goldenRatio])

/-- The source's compression and expansion exponents cancel exactly:
`phi ** (log r / log phi) = r`. -/
theorem goldenRatio_rpow_log (r : ℝ) (hr : 0 < r) :
    goldenRatio ^ (Real.log r / Real.log goldenRatio) = r := by
  rw [Real.rpow_def_of_pos goldenRatio_pos]
  have h : Real.log goldenRatio * (Real.log r / Real.log goldenRatio)
      = Real.log r := by
    rw [mul_comm, div_mul_cancel₀ _ goldenRatio_log_pos.ne']
  rw [h, Real.exp_log hr]

/-- For every positive input the transform collapses to the scalar constant
times the harmonic enhancement evaluated at the scalar constant: the scaled
frequency is exactly `PHI_7777_FREQUENCY` in real arithmetic. -/
theorem phiTransformValue_const (harmonics : List PhiHarmonic) (f : ℝ)
    (hf : 0 < f) :
    phiTransformValue harmonics f =
      phiFrequency * calculateHarmonicEnhancement harmonics phiFrequency := by
  have hS : (0 : ℝ) < phiFrequency := by norm_num [phiFrequency]
  have hratio : 0 < f / phiFrequency := div_pos hf hS
  simp only [phiTransformValue]
  by_cases hgt : f / phiFrequency > 1
  · rw [if_pos hgt, goldenRatio_rpow_log _ hratio,
      show f / (f / phiFrequency) = phiFrequency by field_simp]
  · rw [if_neg hgt, goldenRatio_rpow_log _ (by positivity),
      show f * (1 / (f / phiFrequency)) = phiFrequency by field_simp]

theorem phiMatchScoreFirst5_nonneg (r amp : ℝ) (h : 0 ≤ amp) :
    0 ≤ phiMatchScoreFirst5 r amp := by
  rw [phiMatchScoreFirst5]
  split_ifs <;> positivity

theorem enhancement_ge_one (harmonics : List PhiHarmonic)
    (h : ∀ x ∈ harmonics, 0 ≤ x.amplitude) (f : ℝ) :
    1 ≤ calculateHarmonicEnhancement harmonics f := by
  rw [calculateHarmonicEnhancement]
  suffices h' : ∀ (l : List PhiHarmonic), (∀ x ∈ l, 0 ≤ x.amplitude) →
      ∀ init : ℝ, init ≤ l.foldl (fun acc hh =>
        if hh.active then
          acc + phiMatchScoreFirst5 (f / hh.frequency) hh.amplitude
        else acc) init by
    exact h' harmonics h 1
  intro l
  induction l with
  | nil => intro _ init; simp
  | cons a t ih =>
    intro hl init
    simp only [List.foldl_cons]
    have ha := hl a (List.mem_cons_self a t)
    have ht : ∀ x ∈ t, 0 ≤ x.amplitude := fun x hx =>
      hl x (List.mem_cons_of_mem a hx)
    refine le_trans ?_ (ih ht _)
    split
    · linarith [phiMatchScoreFirst5_nonneg (f / a.frequency) a.amplitude ha]
    · exact le_refl init

theorem phiFreshHarmonics_amp_nonneg : ∀ x ∈ phiFreshHarmonics, 0 ≤ x.amplitude := by
  intro x hx
  simp only [phiFreshHarmonics, List.mem_map] at hx
  obtain ⟨k, -, rfl⟩ := hx
  have hp : (0 : ℝ) < goldenRatio ^ (k + 1) := pow_pos goldenRatio_pos _
  positivity

/-- The transformed value of any positive frequency is positive. -/
theorem phiTransformValue_fresh_pos (f : ℝ) (hf : 0 < f) :
    0 < phiTransformValue phiFreshHarmonics f := by
  rw [phiTransformValue_const _ _ hf]
  have h1 := enhancement_ge_one phiFreshHarmonics phiFreshHarmonics_amp_nonneg
    phiFrequency
  have hS : (0 : ℝ) < phiFrequency := by norm_num [phiFrequency]
  nlinarith

/-- No window of the golden-ratio scan matches ratio 1 (last-match version). -/
theorem phiResonanceScoreLast_one : phiResonanceScoreLast 1 = 0 := by
  rw [phiResonanceScoreLast, show List.range 7 = [0, 1, 2, 3, 4, 5, 6] from rfl]
  simp only [List.foldl_cons, List.foldl_nil]
  norm_num [goldenRatio, abs_lt]

/-- No window of the golden-ratio scan matches ratio 1 (first-match version). -/
theorem phiResonanceScoreFirstSpec_one : phiResonanceScoreFirstSpec 1 = 0 := by
  rw [phiResonanceScoreFirstSpec]
  norm_num [firstPhiScoreAux, phiScoreAt, goldenRatio, abs_lt]

/-- The transform on the initialized phi-scalar state succeeds for positive
inputs and leaves the state unchanged. -/
theorem applyPhiScalarTransform_initState (f : ℝ) (hf : 0 < f) :
    applyPhiScalarTransform phiInitState f =
      (.ok (phiTransformValue phiFreshHarmonics f), phiInitState) := by
  have hactive : phiInitState.scalarActive = true := rfl
  have hharm : phiInitState.phiHarmonics = phiFreshHarmonics := rfl
  simp only [applyPhiScalarTransform, hactive, if_true, hharm]
  rw [if_neg (not_le.mpr hf)]

/-- Claim C2: for positive frequencies, `calculate_consciousness_scalar_resonance`
transforms both inputs, forms the ratio of the transformed values, and returns
the maximum of the first-matching phi-resonance score of that ratio (1/n for
`phi^n`, 0.5/n for `phi^(-n)`, windows of width 0.1 over n in 1..7) and
`exp(-|delta|/1000)`.  The source's scan keeps the LAST matching n, but the
two scans agree on every reachable ratio: the transform is constant in exact
real arithmetic, so the ratio is always 1, which no window matches. -/
theorem claim_C2_scalar_resonance_formula (cf tf : ℝ) (hcf : 0 < cf)
    (htf : 0 < tf) :
    (calculateConsciousnessScalarResonance phiInitState cf tf).1 =
      .ok (max
        (phiResonanceScoreFirstSpec (phiTransformValue phiFreshHarmonics cf /
          phiTransformValue phiFreshHarmonics tf))
        (Real.exp (-|phiTransformValue phiFreshHarmonics cf -
          phiTransformValue phiFreshHarmonics tf| / 1000))) := by
  have hT : phiTransformValue phiFreshHarmonics cf
      = phiTransformValue phiFreshHarmonics tf := by
    rw [phiTransformValue_const _ _ hcf, phiTransformValue_const _ _ htf]
  have hTpos := phiTransformValue_fresh_pos tf htf
  simp only [calculateConsciousnessScalarResonance,
    applyPhiScalarTransform_initState cf hcf, applyPhiScalarTransform_initState tf htf]
  rw [if_neg hTpos.ne']
  rw [hT, div_self hTpos.ne', sub_self, abs_zero, neg_zero, zero_div,
    phiResonanceScoreLast_one, phiResonanceScoreFirstSpec_one]

/-- Witness for C2 at the concrete frequencies 432 and 741. -/
theorem claim_C2_witness :
    (calculateConsciousnessScalarResonance phiInitState 432 741).1 =
      .ok (max
        (phiResonanceScoreFirstSpec (phiTransformValue phiFreshHarmonics 432 /
          phiTransformValue phiFreshHarmonics 741))
        (Real.exp (-|phiTransformValue phiFreshHarmonics 432 -
          phiTransformValue phiFreshHarmonics 741| / 1000))) :=
  claim_C2_scalar_resonance_formula 432 741 (by norm_num) (by norm_num)

/-! ## State-threading lemmas for the evolve pipeline -/

theorem sovereigntyOperState_active (s : SovereigntyState) :
    (sovereigntyOperState s).autonomyActive = true := by
  rw [sovereigntyOperState]
  split
  · assumption
  · rfl

theorem requestConsent_frame (integrity : ℝ) (s : SovereigntyState)
    (e t : String) (rng : ℝ × ℝ) :
    (requestBiologicalConsent integrity s e t rng).2.autonomyActive = true ∧
    (requestBiologicalConsent integrity s e t rng).2.autonomyViolations
        = (sovereigntyOperState s).autonomyViolations ∧
    (requestBiologicalConsent integrity s e t rng).2.protectedFrequencies
        = (sovereigntyOperState s).protectedFrequencies := by
  simp only [requestBiologicalConsent]
  split_ifs <;> exact ⟨sovereigntyOperState_active s, rfl, rfl⟩

theorem sovereigntyOperState_of_active (s : SovereigntyState)
    (h : s.autonomyActive = true) : sovereigntyOperState s = s := by
  rw [sovereigntyOperState, if_pos h]

theorem synthesize_state_of_active (s : MatrixState) (t : ℝ) (lvl : String)
    (h : s.synthesisActive = true) :
    (synthesizeConsciousnessTech s t lvl).2 = s := by
  simp only [synthesizeConsciousnessTech, h, if_true]
  split_ifs <;> rfl

theorem amplify_state_of_active (s : LoveState) (x : ℝ) (n : ℕ)
    (h : s.amplificationActive = true) :
    (amplifyLoveInfinite s x n).2 = s := by
  simp only [amplifyLoveInfinite, h, if_true]

theorem alignment_state_of_active (s : GridState) (pos : List (String × ℝ))
    (h : s.gridActive = true) :
    (calculatePlanetaryAlignment s pos).2 =
      { s with planetaryAlignment := (calculatePlanetaryAlignment s pos).1 } := by
  simp only [calculatePlanetaryAlignment, h, if_true]

theorem integrate_state_of_active (s : GridState) (f : ℝ)
    (h : s.gridActive = true) :
    (integrateConsciousnessWithGrid s f).2 = s := by
  simp only [integrateConsciousnessWithGrid, h, if_true]
  split_ifs <;> rfl

theorem transform_state_of_active (s : PhiState) (f : ℝ)
    (h : s.scalarActive = true) :
    (applyPhiScalarTransform s f).2 = s := by
  simp only [applyPhiScalarTransform, h, if_true]
  split_ifs <;> rfl

theorem resonance_state_of_active (s : PhiState) (cf tf : ℝ)
    (h : s.scalarActive = true) :
    (calculateConsciousnessScalarResonance s cf tf).2 = s := by
  simp only [calculateConsciousnessScalarResonance,
    transform_state_of_active s cf h, transform_state_of_active s tf h]
  split
  · rfl
  · split
    · rfl
    · split_ifs <;> rfl

/-- On a fully initialized engine, every `evolve` call (whatever its outcome)
leaves all component state unchanged except the consent map and the grid's
cached `planetary_alignment`, never returns the init-failure outcome, and
preserves `engine_active`. -/
theorem evolve_frame_on_active (integrity : ℝ) (s : EngineState) (e : String)
    (f : ℝ) (hEng : s.engineActive = true)
    (hMat : s.matrix.synthesisActive = true)
    (hLove : s.love.amplificationActive = true)
    (hSov : s.sovereignty.autonomyActive = true)
    (hGrid : s.grid.gridActive = true) (hPhi : s.phi.scalarActive = true) :
    (activateConsciousnessEvolution integrity s e f).1 ≠ .initFailed ∧
    (activateConsciousnessEvolution integrity s e f).2.engineActive = true ∧
    (activateConsciousnessEvolution integrity s e f).2.matrix = s.matrix ∧
    (activateConsciousnessEvolution integrity s e f).2.pulse = s.pulse ∧
    (activateConsciousnessEvolution integrity s e f).2.love = s.love ∧
    (activateConsciousnessEvolution integrity s e f).2.phi = s.phi ∧
    (activateConsciousnessEvolution integrity s e f).2.grid.gridActive
        = s.grid.gridActive ∧
    (activateConsciousnessEvolution integrity s e f).2.grid.earthResonanceAmplitude
        = s.grid.earthResonanceAmplitude ∧
    (activateConsciousnessEvolution integrity s e f).2.grid.activeHarmonics
        = s.grid.activeHarmonics ∧
    (activateConsciousnessEvolution integrity s e f).2.grid.resonanceMatrix
        = s.grid.resonanceMatrix ∧
    (activateConsciousnessEvolution integrity s e f).2.sovereignty.autonomyActive
        = true ∧
    (activateConsciousnessEvolution integrity s e f).2.sovereignty.autonomyViolations
        = s.sovereignty.autonomyViolations ∧
    (activateConsciousnessEvolution integrity s e f).2.sovereignty.protectedFrequencies
        = s.sovereignty.protectedFrequencies := by
  have hcons := requestConsent_frame integrity s.sovereignty e
    "consciousness_evolution" (f - 10, f + 10)
  rw [sovereigntyOperState_of_active _ hSov] at hcons
  simp only [activateConsciousnessEvolution]
  rw [if_pos hEng, if_neg (by simp [hEng])]
  split
  · exact ⟨by simp, hEng, rfl, rfl, rfl, rfl, rfl, rfl, rfl, rfl,
      hcons.1, hcons.2.1, hcons.2.2⟩
  · simp only [synthesize_state_of_active _ _ _ hMat]
    split
    · exact ⟨by simp, hEng, rfl, rfl, rfl, rfl, rfl, rfl, rfl, rfl,
        hcons.1, hcons.2.1, hcons.2.2⟩
    · simp only [amplify_state_of_active _ _ _ hLove,
        alignment_state_of_active _ _ hGrid]
      have hAG : ({ s.grid with planetaryAlignment :=
          (calculatePlanetaryAlignment s.grid simulatedPlanetaryPositions).1 } :
            GridState).gridActive = true := hGrid
      simp only [integrate_state_of_active _ _ hAG,
        transform_state_of_active _ _ hPhi, resonance_state_of_active _ _ _ hPhi]
      split
      · exact ⟨by simp, hEng, rfl, rfl, rfl, rfl, rfl, rfl, rfl, rfl,
          hcons.1, hcons.2.1, hcons.2.2⟩
      · split
        · exact ⟨by simp, hEng, rfl, rfl, rfl, rfl, rfl, rfl, rfl, rfl,
            hcons.1, hcons.2.1, hcons.2.2⟩
        · exact ⟨by simp, hEng, rfl, rfl, rfl, rfl, rfl, rfl, rfl, rfl,
            hcons.1, hcons.2.1, hcons.2.2⟩

/-! ## Claim C1 -/

theorem evolutionStatusLabel_bands (o : ℝ) :
    (evolutionStatusLabel o = "transcendent_evolution" ↔ o ≥ 0.8) ∧
    (evolutionStatusLabel o = "advanced_evolution" ↔ 0.6 ≤ o ∧ o < 0.8) ∧
    (evolutionStatusLabel o = "moderate_evolution" ↔ 0.4 ≤ o ∧ o < 0.6) ∧
    (evolutionStatusLabel o = "minimal_evolution" ↔ o < 0.4) := by
  rw [evolutionStatusLabel]
  split_ifs with h1 h2 h3
  · exact ⟨iff_of_true rfl h1,
      iff_of_false (by decide) (fun h => absurd h.2 (not_lt.mpr h1)),
      iff_of_false (by decide) (fun h => absurd h.2 (not_lt.mpr (by linarith))),
      iff_of_false (by decide) (not_lt.mpr (by linarith))⟩
  · exact ⟨iff_of_false (by decide) h1,
      iff_of_true rfl ⟨h2, not_le.mp h1⟩,
      iff_of_false (by decide) (fun h => absurd h.2 (not_lt.mpr h2)),
      iff_of_false (by decide) (not_lt.mpr (by linarith))⟩
  · exact ⟨iff_of_false (by decide) h1,
      iff_of_false (by decide) (fun h => absurd h.1 h2),
      iff_of_true rfl ⟨h3, not_le.mp h2⟩,
      iff_of_false (by decide) (not_lt.mpr h3)⟩
  · exact ⟨iff_of_false (by decide) h1,
      iff_of_false (by decide) (fun h => absurd h.1 h2),
      iff_of_false (by decide) (fun h => absurd h.1 h3),
      iff_of_true rfl (not_le.mp h3)⟩

theorem mkEvolutionRecord_fields (rt : Bool) (sc la pa gf pf sr : ℝ) :
    (mkEvolutionRecord rt sc la pa gf pf sr).overallEvolutionLevel
        = (sc + la / 10 + pa + sr) / 4 ∧
    (mkEvolutionRecord rt sc la pa gf pf sr).synthesisCoefficient = sc ∧
    (mkEvolutionRecord rt sc la pa gf pf sr).loveAmplification = la ∧
    (mkEvolutionRecord rt sc la pa gf pf sr).planetaryAlignment = pa ∧
    (mkEvolutionRecord rt sc la pa gf pf sr).scalarResonance = sr ∧
    (mkEvolutionRecord rt sc la pa gf pf sr).status
        = evolutionStatusLabel ((sc + la / 10 + pa + sr) / 4) :=
  ⟨rfl, rfl, rfl, rfl, rfl, rfl⟩

/-- Every completed outcome of the pipeline is built by `mkEvolutionRecord`. -/
theorem evolve_completed_record (integrity : ℝ) (s : EngineState)
    (entityId : String) (f : ℝ) (r : EvolutionRecord)
    (h : (activateConsciousnessEvolution integrity s entityId f).1
      = .completed r) :
    ∃ (rt : Bool) (sc la pa gf pf sr : ℝ),
      r = mkEvolutionRecord rt sc la pa gf pf sr := by
  simp only [activateConsciousnessEvolution] at h
  repeat' split at h
  all_goals (try simp at h)
  all_goals exact ⟨_, _, _, _, _, _, _, h.symm⟩

/-- Claim C1: whenever the evolve pipeline runs to completion (no consent
denial, no internal error), `overall_evolution_level` is the arithmetic mean
of the four metrics `[synthesis, love/10, alignment, scalar_resonance]`, and
the status is `transcendent_evolution` iff that mean is at least 0.8,
`advanced_evolution` iff it lies in [0.6, 0.8), `moderate_evolution` iff it
lies in [0.4, 0.6), and `minimal_evolution` iff it is below 0.4. -/
theorem claim_C1_overall_mean_and_status_bands (integrity : ℝ) (s : EngineState)
    (entityId : String) (frequency : ℝ) :
    match (activateConsciousnessEvolution integrity s entityId frequency).1 with
    | .completed r =>
        r.overallEvolutionLevel = (r.synthesisCoefficient +
          r.loveAmplification / 10 + r.planetaryAlignment +
          r.scalarResonance) / 4 ∧
        (r.status = "transcendent_evolution" ↔ r.overallEvolutionLevel ≥ 0.8) ∧
        (r.status = "advanced_evolution" ↔
          0.6 ≤ r.overallEvolutionLevel ∧ r.overallEvolutionLevel < 0.8) ∧
        (r.status = "moderate_evolution" ↔
          0.4 ≤ r.overallEvolutionLevel ∧ r.overallEvolutionLevel < 0.6) ∧
        (r.status = "minimal_evolution" ↔ r.overallEvolutionLevel < 0.4)
    | _ => True := by
  rcases hc : (activateConsciousnessEvolution integrity s entityId frequency).1
    with _ | _ | e | r
  · trivial
  · trivial
  · trivial
  · obtain ⟨rt, sc, la, pa, gf, pf, sr, rfl⟩ :=
      evolve_completed_record integrity s entityId frequency r hc
    obtain ⟨ho, hsc, hla, hpa, hsr, hst⟩ := mkEvolutionRecord_fields rt sc la pa gf pf sr
    show _ ∧ _ ∧ _ ∧ _ ∧ _
    rw [ho, hsc, hla, hpa, hsr, hst]
    exact ⟨rfl, evolutionStatusLabel_bands _⟩

/-! ## Claim C7 -/

/-- An evolve call on an inactive engine behaves exactly like the call on the
auto-initialized engine (initialization always succeeds). -/
theorem evolve_auto_init (integrity : ℝ) (s0 : EngineState) (e : String) (f : ℝ)
    (h : s0.engineActive = false) :
    activateConsciousnessEvolution integrity s0 e f
      = activateConsciousnessEvolution integrity (initializeEngine s0).2 e f := by
  have htrue : (initializeEngine s0).1 = true := rfl
  have hactive : (initializeEngine s0).2.engineActive = true := rfl
  simp only [activateConsciousnessEvolution]
  rw [if_neg (show ¬(s0.engineActive = true) by simp [h]),
    if_neg (show ¬(s0.engineActive = false ∧ (initializeEngine s0).1 = false) by
      simp [htrue]),
    if_pos hactive,
    if_neg (show ¬((initializeEngine s0).2.engineActive = false ∧
        (initializeEngine (initializeEngine s0).2).1 = false) by simp [hactive])]

/-- Claim C7: right after a successful `emergency_shutdown`, an evolve call
re-initializes the engine transparently (the auto-initialization succeeds and
all six components are active afterwards) and proceeds with the pipeline
instead of returning the engine-initialization-failed outcome. -/
theorem claim_C7_shutdown_then_evolve_recovers (integrity : ℝ) (s : EngineState)
    (entityId : String) (f : ℝ) :
    (emergencyShutdown s).1 = true ∧
    (initializeEngine (emergencyShutdown s).2).1 = true ∧
    (activateConsciousnessEvolution integrity (emergencyShutdown s).2 entityId
        f).1 ≠ .initFailed ∧
    (activateConsciousnessEvolution integrity (emergencyShutdown s).2 entityId
        f).2.engineActive = true ∧
    (activateConsciousnessEvolution integrity (emergencyShutdown s).2 entityId
        f).2.matrix.synthesisActive = true ∧
    (activateConsciousnessEvolution integrity (emergencyShutdown s).2 entityId
        f).2.pulse.pulseActive = true ∧
    (activateConsciousnessEvolution integrity (emergencyShutdown s).2 entityId
        f).2.love.amplificationActive = true ∧
    (activateConsciousnessEvolution integrity (emergencyShutdown s).2 entityId
        f).2.sovereignty.autonomyActive = true ∧
    (activateConsciousnessEvolution integrity (emergencyShutdown s).2 entityId
        f).2.grid.gridActive = true ∧
    (activateConsciousnessEvolution integrity (emergencyShutdown s).2 entityId
        f).2.phi.scalarActive = true := by
  have hsd : (emergencyShutdown s).2.engineActive = false := rfl
  rw [evolve_auto_init integrity _ entityId f hsd]
  have h1 : (initializeEngine (emergencyShutdown s).2).2.engineActive = true := rfl
  have h2 : (initializeEngine (emergencyShutdown s).2).2.matrix.synthesisActive
      = true := rfl
  have h3 : (initializeEngine (emergencyShutdown s).2).2.love.amplificationActive
      = true := rfl
  have h4 : (initializeEngine (emergencyShutdown s).2).2.sovereignty.autonomyActive
      = true := rfl
  have h5 : (initializeEngine (emergencyShutdown s).2).2.grid.gridActive
      = true := rfl
  have h6 : (initializeEngine (emergencyShutdown s).2).2.phi.scalarActive
      = true := rfl
  obtain ⟨o1, o2, o3, o4, o5, o6, o7, -, -, -, o11, -, -⟩ :=
    evolve_frame_on_active integrity (initializeEngine (emergencyShutdown s).2).2
      entityId f h1 h2 h3 h4 h5 h6
  refine ⟨rfl, rfl, o1, o2, ?_, ?_, ?_, o11, ?_, ?_⟩
  · rw [o3]; exact h2
  · rw [o4]; rfl
  · rw [o5]; exact h3
  · rw [o7]; exact h5
  · rw [o6]; exact h6

/-! ## Claim C3 (amended theorem) -/

/-- Claim C3, amended: on a fully initialized engine, an evolve call that ends
with status `denied` or `error` mutates no persistent component state other
than the consent record written for the entity and the grid's cached
`planetary_alignment` field (overwritten by pipeline step 5 when the failure
happens later, in step 6): the matrix, pulse, love and phi states are
unchanged, and so are all other grid and sovereignty fields. -/
theorem claim_C3_failed_evolve_frame (integrity : ℝ) (s : EngineState)
    (entityId : String) (f : ℝ) (hEng : s.engineActive = true)
    (hMat : s.matrix.synthesisActive = true)
    (hLove : s.love.amplificationActive = true)
    (hSov : s.sovereignty.autonomyActive = true)
    (hGrid : s.grid.gridActive = true) (hPhi : s.phi.scalarActive = true)
    (_hfail : (activateConsciousnessEvolution integrity s entityId f).1 = .denied ∨
      ∃ err, (activateConsciousnessEvolution integrity s entityId f).1
        = .errorStatus err) :
    (activateConsciousnessEvolution integrity s entityId f).2.matrix = s.matrix ∧
    (activateConsciousnessEvolution integrity s entityId f).2.pulse = s.pulse ∧
    (activateConsciousnessEvolution integrity s entityId f).2.love = s.love ∧
    (activateConsciousnessEvolution integrity s entityId f).2.phi = s.phi ∧
    (activateConsciousnessEvolution integrity s entityId f).2.grid.gridActive
        = s.grid.gridActive ∧
    (activateConsciousnessEvolution integrity s entityId
        f).2.grid.earthResonanceAmplitude = s.grid.earthResonanceAmplitude ∧
    (activateConsciousnessEvolution integrity s entityId f).2.grid.activeHarmonics
        = s.grid.activeHarmonics ∧
    (activateConsciousnessEvolution integrity s entityId f).2.grid.resonanceMatrix
        = s.grid.resonanceMatrix ∧
    (activateConsciousnessEvolution integrity s entityId
        f).2.sovereignty.autonomyActive = s.sovereignty.autonomyActive ∧
    (activateConsciousnessEvolution integrity s entityId
        f).2.sovereignty.autonomyViolations = s.sovereignty.autonomyViolations ∧
    (activateConsciousnessEvolution integrity s entityId
        f).2.sovereignty.protectedFrequencies
        = s.sovereignty.protectedFrequencies := by
  obtain ⟨-, -, o3, o4, o5, o6, o7, o8, o9, o10, o11, o12, o13⟩ :=
    evolve_frame_on_active integrity s entityId f hEng hMat hLove hSov hGrid hPhi
  exact ⟨o3, o4, o5, o6, o7, o8, o9, o10, hSov ▸ o11, o12, o13⟩

/-! ## Concrete run for claim C3: evolve at frequency -20 on the fresh
initialized engine -/

theorem simulated_factors_eval :
    (simulatedPlanetaryPositions.filterMap fun p =>
        (planetaryFrequencies.lookup p.1).map fun pf => alignmentFactor p.2 pf)
      = [alignmentFactor 0.0 7.83, alignmentFactor 45.0 28.0,
         alignmentFactor 120.0 144.72, alignmentFactor 180.0 183.58,
         alignmentFactor 240.0 147.85, alignmentFactor 30.0 221.23,
         alignmentFactor 90.0 141.27, alignmentFactor 0.0 126.22] := by rfl

theorem alignmentFactor_earth_eval :
    alignmentFactor 0.0 7.83 = 7.83 / maxPlanetaryFrequency := by
  rw [alignmentFactor, foldedAngle, pymod]
  norm_num [Real.cos_zero]

/-- The fixed simulated positions produce a strictly positive alignment. -/
theorem alignment_sim_positions_pos (g : GridState) :
    0 < (calculatePlanetaryAlignment g simulatedPlanetaryPositions).1 := by
  have hval : (calculatePlanetaryAlignment g simulatedPlanetaryPositions).1 =
      (if ((simulatedPlanetaryPositions.filterMap fun p =>
            (planetaryFrequencies.lookup p.1).map fun pf =>
              alignmentFactor p.2 pf)).isEmpty then (0:ℝ)
       else ((simulatedPlanetaryPositions.filterMap fun p =>
            (planetaryFrequencies.lookup p.1).map fun pf =>
              alignmentFactor p.2 pf)).sum /
          (((simulatedPlanetaryPositions.filterMap fun p =>
            (planetaryFrequencies.lookup p.1).map fun pf =>
              alignmentFactor p.2 pf)).length : ℝ)) := rfl
  rw [hval, simulated_factors_eval]
  simp only [List.isEmpty_cons, List.sum_cons, List.sum_nil, List.length_cons,
    List.length_nil, if_false]
  have h1 : 0 < alignmentFactor 0.0 7.83 := by
    rw [alignmentFactor_earth_eval, maxPlanetaryFrequency_eq]
    norm_num
  have h2 : 0 ≤ alignmentFactor 45.0 28.0 := alignmentFactor_nonneg _ _ (by norm_num)
  have h3 : 0 ≤ alignmentFactor 120.0 144.72 :=
    alignmentFactor_nonneg _ _ (by norm_num)
  have h4 : 0 ≤ alignmentFactor 180.0 183.58 :=
    alignmentFactor_nonneg _ _ (by norm_num)
  have h5 : 0 ≤ alignmentFactor 240.0 147.85 :=
    alignmentFactor_nonneg _ _ (by norm_num)
  have h6 : 0 ≤ alignmentFactor 30.0 221.23 :=
    alignmentFactor_nonneg _ _ (by norm_num)
  have h7 : 0 ≤ alignmentFactor 90.0 141.27 :=
    alignmentFactor_nonneg _ _ (by norm_num)
  have h8 : 0 ≤ alignmentFactor 0.0 126.22 :=
    alignmentFactor_nonneg _ _ (by norm_num)
  apply div_pos (by linarith) (by push_cast; norm_num)

theorem bestSchumann_neg20 : listArgminAbs (-20) schumannFrequencies = 7.83 := by
  have habs : ∀ x : ℝ, 0 ≤ x + 20 → |x - (-20)| = x + 20 := by
    intro x hx
    rw [show x - (-20) = x + 20 by ring, abs_of_nonneg hx]
  simp only [listArgminAbs, schumannFrequencies, List.foldl_cons, List.foldl_nil]
  rw [show (if |(14.3 : ℝ) - -20| < |(7.83 : ℝ) - -20| then (14.3 : ℝ) else 7.83)
        = 7.83 from by
      rw [habs 14.3 (by norm_num), habs 7.83 (by norm_num)]
      exact if_neg (by norm_num)]
  rw [show (if |(20.8 : ℝ) - -20| < |(7.83 : ℝ) - -20| then (20.8 : ℝ) else 7.83)
        = 7.83 from by
      rw [habs 20.8 (by norm_num), habs 7.83 (by norm_num)]
      exact if_neg (by norm_num)]
  rw [show (if |(27.3 : ℝ) - -20| < |(7.83 : ℝ) - -20| then (27.3 : ℝ) else 7.83)
        = 7.83 from by
      rw [habs 27.3 (by norm_num), habs 7.83 (by norm_num)]
      exact if_neg (by norm_num)]
  rw [show (if |(33.8 : ℝ) - -20| < |(7.83 : ℝ) - -20| then (33.8 : ℝ) else 7.83)
        = 7.83 from by
      rw [habs 33.8 (by norm_num), habs 7.83 (by norm_num)]
      exact if_neg (by norm_num)]
  rw [show (if |(39.0 : ℝ) - -20| < |(7.83 : ℝ) - -20| then (39.0 : ℝ) else 7.83)
        = 7.83 from by
      rw [habs 39.0 (by norm_num), habs 7.83 (by norm_num)]
      exact if_neg (by norm_num)]
  rw [show (if |(45.0 : ℝ) - -20| < |(7.83 : ℝ) - -20| then (45.0 : ℝ) else 7.83)
        = 7.83 from by
      rw [habs 45.0 (by norm_num), habs 7.83 (by norm_num)]
      exact if_neg (by norm_num)]

theorem integrationCoeff_neg20_weak :
    ¬(Real.exp (-|(-20 : ℝ) / 7.83 - 1|) ≥ integrationThreshold) := by
  rw [integrationThreshold, not_le]
  have habs : |(-20 : ℝ) / 7.83 - 1| = 20 / 7.83 + 1 := by
    rw [abs_of_nonpos (by norm_num)]
    norm_num
  rw [habs, Real.exp_neg]
  have h1 : (1.25 : ℝ) < Real.exp (20 / 7.83 + 1) := by
    nlinarith [Real.add_one_le_exp ((20 : ℝ) / 7.83 + 1)]
  calc (Real.exp (20 / 7.83 + 1))⁻¹ < (1.25 : ℝ)⁻¹ := by
        exact inv_strictAnti₀ (by norm_num) h1
    _ = 0.8 := by norm_num

/-- Integration of the frequency -20 on any active grid state takes the
weak-resonance branch and yields a non-positive frequency. -/
theorem integrate_neg20 (g : GridState) (hg : g.gridActive = true) :
    (integrateConsciousnessWithGrid g (-20)).1
        = (-20) * (1 + Real.exp (-|(-20 : ℝ) / 7.83 - 1|) * 0.1) ∧
    (integrateConsciousnessWithGrid g (-20)).1 ≤ 0 := by
  have hval : (integrateConsciousnessWithGrid g (-20)).1
      = (-20) * (1 + Real.exp (-|(-20 : ℝ) / 7.83 - 1|) * 0.1) := by
    simp only [integrateConsciousnessWithGrid, hg, if_true, bestSchumann_neg20]
    rw [if_neg integrationCoeff_neg20_weak]
  refine ⟨hval, ?_⟩
  rw [hval]
  nlinarith [Real.exp_pos (-|(-20 : ℝ) / 7.83 - 1|)]

theorem engineInitState_matrix_eq :
    engineInitState.matrix =
      { divineRecognition := 432.0, crisisTranscendence := 528.0,
        cosmicIntegration := 741.0, synthesisActive := true,
        evolutionCoefficient := 1 } := rfl

/-- At frequency -20 the consent window is (-30, -10), which misses every
protected frequency, and the oracle integrity 1 clears the 0.95 threshold. -/
theorem consent_neg20_granted :
    (requestBiologicalConsent 1 engineInitState.sovereignty "entity_alpha"
        "consciousness_evolution" ((-20 : ℝ) - 10, (-20 : ℝ) + 10)).1 = true := by
  have hs : engineInitState.sovereignty.autonomyActive = true := rfl
  have hnoconf : ¬∃ p ∈ engineInitState.sovereignty.protectedFrequencies,
      (((-20 : ℝ) - 10, (-20 : ℝ) + 10)).1 ≤ p ∧
        p ≤ (((-20 : ℝ) - 10, (-20 : ℝ) + 10)).2 := by
    rintro ⟨p, hp, h1, h2⟩
    have hfreqs : engineInitState.sovereignty.protectedFrequencies
        = initialProtectedFrequencies := rfl
    rw [hfreqs] at hp
    have hmem : p = 8.0 ∨ p = 13.0 ∨ p = 30.0 ∨ p = 4.0 ∨ p = 0.5 ∨ p = 72.0 ∨
        p = 1.2 := by
      simpa [initialProtectedFrequencies] using hp
    rcases hmem with rfl | rfl | rfl | rfl | rfl | rfl | rfl <;> norm_num at h1 h2
  simp only [requestBiologicalConsent, sovereigntyOperState_of_active _ hs]
  rw [if_neg hnoconf, if_pos (by norm_num [biologicalIntegrityThreshold])]

theorem transform_nonpos_error (s : PhiState) (h : s.scalarActive = true) (t : ℝ)
    (ht : t ≤ 0) : (applyPhiScalarTransform s t).1 = .error .mathDomainError := by
  simp only [applyPhiScalarTransform, h, if_true]
  rw [if_pos ht]

/-- The evolve call at frequency -20 on the freshly initialized engine, with
integrity oracle 1: consent is granted, the pipeline reaches step 6, and the
phi-scalar transform of the (negative) grid-integrated frequency raises the
math-domain error, after step 5 has already overwritten the grid's
`planetary_alignment`. -/
theorem evolve_neg20_eval :
    activateConsciousnessEvolution 1 engineInitState "entity_alpha" (-20)
      = (.errorStatus .mathDomainError,
         { engineInitState with
            sovereignty := (requestBiologicalConsent 1 engineInitState.sovereignty
              "entity_alpha" "consciousness_evolution"
              ((-20 : ℝ) - 10, (-20 : ℝ) + 10)).2,
            grid := { engineInitState.grid with planetaryAlignment :=
              (calculatePlanetaryAlignment engineInitState.grid
                simulatedPlanetaryPositions).1 } }) := by
  have hEngT : engineInitState.engineActive = true := rfl
  have hMatA : engineInitState.matrix.synthesisActive = true := rfl
  have hLoveA : engineInitState.love.amplificationActive = true := rfl
  have hGridA : engineInitState.grid.gridActive = true := rfl
  have hPhiA : engineInitState.phi.scalarActive = true := rfl
  have hsynth := synthesize_active_formula engineInitState.matrix (-20)
    "cosmic_integration" hMatA (by decide)
    (by rw [layerValue_cosmic, engineInitState_matrix_eq]; norm_num)
  have hamp : ∀ (x : ℝ) (n : ℕ), (amplifyLoveInfinite engineInitState.love x n).2
      = engineInitState.love := fun x n => amplify_state_of_active _ x n hLoveA
  have halign := alignment_state_of_active engineInitState.grid
    simulatedPlanetaryPositions hGridA
  have hg1A : ({ engineInitState.grid with planetaryAlignment :=
      (calculatePlanetaryAlignment engineInitState.grid
        simulatedPlanetaryPositions).1 } : GridState).gridActive = true := hGridA
  have hint := integrate_neg20 _ hg1A
  have hint2 : ∀ f : ℝ, (integrateConsciousnessWithGrid
      ({ engineInitState.grid with planetaryAlignment :=
        (calculatePlanetaryAlignment engineInitState.grid
          simulatedPlanetaryPositions).1 } : GridState) f).2
      = ({ engineInitState.grid with planetaryAlignment :=
        (calculatePlanetaryAlignment engineInitState.grid
          simulatedPlanetaryPositions).1 } : GridState) :=
    fun f => integrate_state_of_active _ f hg1A
  have htrans1 := transform_nonpos_error engineInitState.phi hPhiA _ hint.2
  have htrans2 : (applyPhiScalarTransform engineInitState.phi
      ((integrateConsciousnessWithGrid
        ({ engineInitState.grid with planetaryAlignment :=
          (calculatePlanetaryAlignment engineInitState.grid
            simulatedPlanetaryPositions).1 } : GridState) (-20)).1)).2
      = engineInitState.phi := transform_state_of_active _ _ hPhiA
  have hsynthstate := synthesize_state_of_active engineInitState.matrix (-20)
    "cosmic_integration" hMatA
  simp only [activateConsciousnessEvolution, hEngT, consent_neg20_granted, hsynth,
    hsynthstate, hamp, halign, hint2, htrans1, htrans2, Bool.true_eq_false,
    false_and, and_false, if_false, if_true, ite_true, ite_false, eq_self_iff_true]

theorem engineInitState_alignment_zero :
    engineInitState.grid.planetaryAlignment = 0 := rfl

/-- Counterexample to claim C3 as stated: this evolve call ends with status
`error`, yet the grid's persistent `planetary_alignment` field differs from
its value before the call (0 before, strictly positive after). -/
theorem claim_C3_counterexample :
    (activateConsciousnessEvolution 1 engineInitState "entity_alpha" (-20)).1
        = .errorStatus .mathDomainError ∧
    (activateConsciousnessEvolution 1 engineInitState "entity_alpha"
        (-20)).2.grid.planetaryAlignment
      ≠ engineInitState.grid.planetaryAlignment := by
  rw [evolve_neg20_eval]
  refine ⟨rfl, ?_⟩
  rw [engineInitState_alignment_zero]
  exact ne_of_gt (alignment_sim_positions_pos engineInitState.grid)

/-- Witness for the amended claim C3 at the concrete failing run. -/
theorem claim_C3_witness :
    (activateConsciousnessEvolution 1 engineInitState "entity_alpha"
        (-20)).2.matrix = engineInitState.matrix ∧
    (activateConsciousnessEvolution 1 engineInitState "entity_alpha"
        (-20)).2.pulse = engineInitState.pulse ∧
    (activateConsciousnessEvolution 1 engineInitState "entity_alpha"
        (-20)).2.love = engineInitState.love ∧
    (activateConsciousnessEvolution 1 engineInitState "entity_alpha"
        (-20)).2.phi = engineInitState.phi ∧
    (activateConsciousnessEvolution 1 engineInitState "entity_alpha"
        (-20)).2.grid.gridActive = engineInitState.grid.gridActive ∧
    (activateConsciousnessEvolution 1 engineInitState "entity_alpha"
        (-20)).2.grid.earthResonanceAmplitude
      = engineInitState.grid.earthResonanceAmplitude ∧
    (activateConsciousnessEvolution 1 engineInitState "entity_alpha"
        (-20)).2.grid.activeHarmonics = engineInitState.grid.activeHarmonics ∧
    (activateConsciousnessEvolution 1 engineInitState "entity_alpha"
        (-20)).2.grid.resonanceMatrix = engineInitState.grid.resonanceMatrix ∧
    (activateConsciousnessEvolution 1 engineInitState "entity_alpha"
        (-20)).2.sovereignty.autonomyActive
      = engineInitState.sovereignty.autonomyActive ∧
    (activateConsciousnessEvolution 1 engineInitState "entity_alpha"
        (-20)).2.sovereignty.autonomyViolations
      = engineInitState.sovereignty.autonomyViolations ∧
    (activateConsciousnessEvolution 1 engineInitState "entity_alpha"
        (-20)).2.sovereignty.protectedFrequencies
      = engineInitState.sovereignty.protectedFrequencies :=
  claim_C3_failed_evolve_frame 1 engineInitState "entity_alpha" (-20) rfl rfl rfl
    rfl rfl rfl
    (Or.inr ⟨.mathDomainError, by rw [evolve_neg20_eval]⟩)

end GaiaTequmsa
